import Mathlib

/-!
# CreateRide: pricing and form-state logic of `src/components/ridesAndDetails/CreateRide.js`

A shallow embedding of the ride-creation component.  React state cells are
fields of one record, every handler is a function from the state it reads
to the state it leaves, and each awaited network call is an explicit
argument carrying what the call produced.  JavaScript numbers are modelled
as IEEE-754 binary64 values (a finite double is identified by its exact
rational value), with the built-ins the component calls
(`ToNumber`, `toFixed`, `parseFloat`, `parseInt`, `Date` parsing and
`toISOString`) written out after ECMA-262.
-/

namespace RideOk

/-! ## JavaScript numbers -/

/-- A JavaScript Number: `NaN`, the two infinities, or a finite double given
by its exact rational value (negative zero is identified with zero; the two
are indistinguishable through `toFixed`, `isNaN` and multiplication by a
positive constant). -/
inductive JSNum where
  | nan
  | posInf
  | negInf
  | fin (q : ℚ)
deriving DecidableEq

/-- The rational `2 ^ e` for an integer exponent. -/
def pow2 (e : ℤ) : ℚ :=
  if 0 ≤ e then ((2 ^ e.toNat : ℕ) : ℚ) else 1 / ((2 ^ (-e).toNat : ℕ) : ℚ)

/-- The rational `10 ^ e` for an integer exponent. -/
def pow10 (e : ℤ) : ℚ :=
  if 0 ≤ e then ((10 ^ e.toNat : ℕ) : ℚ) else 1 / ((10 ^ (-e).toNat : ℕ) : ℚ)

/-- Worker of `natLog2`: halve until below two, at most `fuel` times. -/
def natLog2Aux : ℕ → ℕ → ℕ
  | 0, _ => 0
  | fuel + 1, n => if n < 2 then 0 else natLog2Aux fuel (n / 2) + 1

/-- Floor of the base-two logarithm of a natural number (zero at zero). -/
def natLog2 (n : ℕ) : ℕ := natLog2Aux n n

/-- Binary exponent of a positive rational: the `e` with `2 ^ e ≤ q < 2 ^ (e + 1)`. -/
def binExp (q : ℚ) : ℤ :=
  let e0 : ℤ := (natLog2 q.num.natAbs : ℤ) - (natLog2 q.den : ℤ)
  if pow2 e0 ≤ q then e0 else e0 - 1

/-- Round a rational to the nearest integer, ties to the even one. -/
def roundHalfEven (x : ℚ) : ℤ :=
  let f := ⌊x⌋
  let r := x - f
  if r < 1 / 2 then f
  else if 1 / 2 < r then f + 1
  else if f % 2 = 0 then f else f + 1

/-- Round a positive rational to binary64 precision (53 significant bits,
minimum exponent -1022, round to nearest, ties to even); the result is the
rounded value, which is `2 ^ 1024` or more exactly when the operation
overflows. -/
def roundPos (a : ℚ) : ℚ :=
  let e := max (binExp a) (-1022)
  let ulp := pow2 (e - 52)
  (roundHalfEven (a / ulp) : ℚ) * ulp

/-- The Number value for a real (here rational) result: IEEE-754 binary64
round-to-nearest-even, overflowing to the infinities. -/
def roundDouble (q : ℚ) : JSNum :=
  if q = 0 then .fin 0
  else if 0 < q then
    (if pow2 1024 ≤ roundPos q then .posInf else .fin (roundPos q))
  else
    (if pow2 1024 ≤ roundPos (-q) then .negInf else .fin (-roundPos (-q)))

namespace JSNum

/-- Number multiplication, the `*` operator on two Numbers. -/
def mul : JSNum → JSNum → JSNum
  | nan, _ => nan
  | _, nan => nan
  | posInf, posInf => posInf
  | posInf, negInf => negInf
  | negInf, posInf => negInf
  | negInf, negInf => posInf
  | posInf, fin q => if q = 0 then nan else if 0 < q then posInf else negInf
  | negInf, fin q => if q = 0 then nan else if 0 < q then negInf else posInf
  | fin q, posInf => if q = 0 then nan else if 0 < q then posInf else negInf
  | fin q, negInf => if q = 0 then nan else if 0 < q then negInf else posInf
  | fin a, fin b => roundDouble (a * b)

/-- Number division, the `/` operator on two Numbers. -/
def div : JSNum → JSNum → JSNum
  | nan, _ => nan
  | _, nan => nan
  | posInf, fin q => if 0 ≤ q then posInf else negInf
  | negInf, fin q => if 0 ≤ q then negInf else posInf
  | posInf, _ => nan
  | negInf, _ => nan
  | fin _, posInf => fin 0
  | fin _, negInf => fin 0
  | fin a, fin b =>
    if b = 0 then (if a = 0 then nan else if 0 < a then posInf else negInf)
    else roundDouble (a / b)

/-- Unary minus on a Number. -/
def neg : JSNum → JSNum
  | nan => nan
  | posInf => negInf
  | negInf => posInf
  | fin q => fin (-q)

/-- The global `isNaN` applied to a Number. -/
def isNaN : JSNum → Bool
  | nan => true
  | _ => false

end JSNum

/-! ## Decimal digits and number-to-string conversions -/

/-- The character of a decimal digit `d < 10`. -/
def digitChar (d : ℕ) : Char := Char.ofNat (48 + d)

/-- Worker of `natDigits`: peel decimal digits off `n`, least significant first. -/
def natDigitsAux : ℕ → ℕ → List Char → List Char
  | 0, _, acc => acc
  | fuel + 1, n, acc =>
    if n < 10 then digitChar n :: acc
    else natDigitsAux fuel (n / 10) (digitChar (n % 10) :: acc)

/-- Decimal representation of a natural number, without leading zeros. -/
def natDigits (n : ℕ) : List Char := natDigitsAux (n + 1) n []

/-- Two-digit, zero-padded decimal representation (of a number below 100). -/
def pad2 (n : ℕ) : List Char := [digitChar (n / 10 % 10), digitChar (n % 10)]

/-- Decimal exponent of a positive rational: the `k` with `10 ^ (k - 1) ≤ a < 10 ^ k`. -/
def decExp (a : ℚ) : ℤ :=
  let k0 : ℤ := ((natDigits a.num.natAbs).length : ℤ) - ((natDigits a.den).length : ℤ)
  if pow10 k0 ≤ a then k0 + 1 else k0

/-- The digit string `s` with `n` digits and the exponent `k` that
`Number::toString` asks for, tried at a given length `n`: the two `n`-digit
neighbours of `x` on the grid `10 ^ (k - n)`, kept when they read back as `x`,
the closer one first and the even one on a tie. -/
def shortestAt (x : ℚ) (n : ℕ) : Option (ℕ × ℤ) :=
  let k0 := decExp x
  let scale := pow10 (k0 - n)
  let s1 := ⌊x / scale⌋.toNat
  let ok1 : Bool := decide (roundDouble ((s1 : ℚ) * scale) = .fin x)
  let ok2 : Bool := decide (roundDouble (((s1 + 1 : ℕ) : ℚ) * scale) = .fin x)
  let c2 : ℕ × ℤ := if s1 + 1 = 10 ^ n then (10 ^ (n - 1), k0 + 1) else (s1 + 1, k0)
  let d1 := x - (s1 : ℚ) * scale
  let d2 := ((s1 + 1 : ℕ) : ℚ) * scale - x
  if ok1 && ok2 then
    (if d1 < d2 then some (s1, k0)
     else if d2 < d1 then some c2
     else if s1 % 2 = 0 then some (s1, k0) else some c2)
  else if ok1 then some (s1, k0)
  else if ok2 then some c2
  else none

/-- Search for the least number of digits, from `n` upwards, that reads back as `x`. -/
def shortestFrom (x : ℚ) : ℕ → ℕ → ℕ × ℤ
  | 0, n => (⌊x / pow10 (decExp x - n)⌋.toNat, decExp x)
  | fuel + 1, n =>
    match shortestAt x n with
    | some r => r
    | none => shortestFrom x fuel (n + 1)

/-- The shortest decimal digits `s` and exponent `k` (value `0.s × 10 ^ k`) that
read back as the positive double `x`; seventeen digits always suffice. -/
def shortestDigits (x : ℚ) : ℕ × ℤ := shortestFrom x 17 1

/-- `Number::toString` for a positive finite double, radix 10. -/
def posToString (x : ℚ) : List Char :=
  let sk := shortestDigits x
  let ds := natDigits sk.1
  let n : ℤ := ds.length
  let k := sk.2
  if n ≤ k ∧ k ≤ 21 then ds ++ List.replicate (k - n).toNat '0'
  else if 0 < k ∧ k ≤ 21 then ds.take k.toNat ++ '.' :: ds.drop k.toNat
  else if -6 < k ∧ k ≤ 0 then '0' :: '.' :: (List.replicate (-k).toNat '0' ++ ds)
  else
    let e := k - 1
    let es := (if e < 0 then '-' else '+') :: natDigits e.natAbs
    if ds.length = 1 then ds ++ 'e' :: es
    else ds.take 1 ++ '.' :: (ds.drop 1 ++ 'e' :: es)

namespace JSNum

/-- `Number::toString`, the string a Number converts to. -/
def toJSString : JSNum → String
  | nan => "NaN"
  | posInf => "Infinity"
  | negInf => "-Infinity"
  | fin q =>
    if q = 0 then "0"
    else if q < 0 then String.mk ('-' :: posToString (-q))
    else String.mk (posToString q)

/-- `Number.prototype.toFixed(2)`: non-finite values and magnitudes from
`10 ^ 21` print as `Number::toString` does; otherwise the integer `n` with
`n / 100` nearest the value (the larger on a tie) is printed with a point
before its last two digits, after a minus sign when the value is negative. -/
def toFixed2 : JSNum → String
  | nan => "NaN"
  | posInf => "Infinity"
  | negInf => "-Infinity"
  | fin q =>
    let a := |q|
    let m : List Char :=
      if pow10 21 ≤ a then posToString a
      else
        let n := ⌊a * 100 + 1 / 2⌋.toNat
        natDigits (n / 100) ++ '.' :: pad2 (n % 100)
    String.mk (if q < 0 then '-' :: m else m)

end JSNum

/-! ## String-to-number conversions -/

/-- Code points ECMA-262 counts as white space or line terminators. -/
def isJSWhiteSpace (c : Char) : Bool :=
  let n := c.toNat
  n = 9 || n = 10 || n = 11 || n = 12 || n = 13 || n = 32 || n = 160 || n = 5760 ||
  (8192 ≤ n && n ≤ 8202) || n = 8232 || n = 8233 || n = 8239 || n = 8287 ||
  n = 12288 || n = 65279

/-- Decimal digit test. -/
def isDecDigit (c : Char) : Bool := 48 ≤ c.toNat && c.toNat ≤ 57

/-- Value of a string of decimal digits. -/
def digitsVal (cs : List Char) : ℕ := cs.foldl (fun acc c => acc * 10 + (c.toNat - 48)) 0

/-- Value of a digit of radix up to sixteen, if the character is one. -/
def hexDigitVal (c : Char) : Option ℕ :=
  let n := c.toNat
  if 48 ≤ n ∧ n ≤ 57 then some (n - 48)
  else if 97 ≤ n ∧ n ≤ 102 then some (n - 87)
  else if 65 ≤ n ∧ n ≤ 70 then some (n - 55)
  else none

/-- Value of a non-empty string of digits in the given radix, if it is one. -/
def radixVal (radix : ℕ) : List Char → Option ℕ → Option ℕ
  | [], acc => acc
  | c :: cs, acc =>
    match hexDigitVal c with
    | some d => if d < radix then radixVal radix cs (some (acc.getD 0 * radix + d)) else none
    | none => none

/-- Strip leading white space. -/
def trimStart (cs : List Char) : List Char := cs.dropWhile isJSWhiteSpace

/-- Strip white space at both ends. -/
def trimBoth (cs : List Char) : List Char :=
  ((trimStart cs).reverse.dropWhile isJSWhiteSpace).reverse

/-- An `ExponentPart` at the head of the input: `e` or `E`, an optional sign
and at least one digit. -/
def scanExponent (cs : List Char) : Option (ℤ × List Char) :=
  match cs with
  | [] => none
  | c :: r =>
    if c = 'e' ∨ c = 'E' then
      let neg : Bool := decide (r.head? = some '-')
      let r1 := if r.head? = some '+' ∨ r.head? = some '-' then r.tail else r
      let ds := r1.takeWhile isDecDigit
      if ds = [] then none
      else some ((if neg then -(digitsVal ds : ℤ) else (digitsVal ds : ℤ)), r1.dropWhile isDecDigit)
    else none

/-- The longest `StrUnsignedDecimalLiteral` at the head of the input, as the
Number it denotes, with the rest of the input. -/
def scanUnsigned (cs : List Char) : Option (JSNum × List Char) :=
  if "Infinity".data <+: cs then some (.posInf, cs.drop 8)
  else
    let ip := cs.takeWhile isDecDigit
    let r1 := cs.dropWhile isDecDigit
    let dot : Bool := decide (r1.head? = some '.')
    let fp := if dot then r1.tail.takeWhile isDecDigit else []
    let r2 := if dot then r1.tail.dropWhile isDecDigit else r1
    if ip = [] ∧ fp = [] then none
    else
      let mant : ℚ := (digitsVal ip : ℚ) + (digitsVal fp : ℚ) / ((10 ^ fp.length : ℕ) : ℚ)
      match scanExponent r2 with
      | some (e, r3) => some (roundDouble (mant * pow10 e), r3)
      | none => some (roundDouble mant, r2)

/-- The longest `StrDecimalLiteral` (optionally signed) at the head of the input. -/
def scanDecimal (cs : List Char) : Option (JSNum × List Char) :=
  if cs.head? = some '+' then scanUnsigned cs.tail
  else if cs.head? = some '-' then
    (scanUnsigned cs.tail).map (fun p => (p.1.neg, p.2))
  else scanUnsigned cs

/-- A `NonDecimalIntegerLiteral` (`0x`, `0o`, `0b` forms) spanning the whole input. -/
def scanNonDecimal (cs : List Char) : Option JSNum :=
  match cs with
  | '0' :: p :: ds =>
    let radix : ℕ :=
      if p = 'x' ∨ p = 'X' then 16 else if p = 'o' ∨ p = 'O' then 8
      else if p = 'b' ∨ p = 'B' then 2 else 0
    if radix = 0 then none
    else (radixVal radix ds none).map (fun n => roundDouble n)
  | _ => none

/-- `StringToNumber`: the Number a string converts to under `ToNumber`. -/
def stringToNumber (s : String) : JSNum :=
  let t := trimBoth s.data
  if t = [] then .fin 0
  else
    match scanNonDecimal t with
    | some n => n
    | none =>
      match scanDecimal t with
      | some (v, []) => v
      | _ => .nan

/-- The global `parseFloat` on a string. -/
def parseFloatStr (s : String) : JSNum :=
  match scanDecimal (trimStart s.data) with
  | some (v, _) => v
  | none => .nan

/-- The global `parseInt(s, 10)` on a string: optional sign, then the longest
run of decimal digits; `NaN` when there is none. -/
def parseIntStr (s : String) : JSNum :=
  let t := trimStart s.data
  let neg : Bool := decide (t.head? = some '-')
  let t1 := if t.head? = some '+' ∨ t.head? = some '-' then t.tail else t
  let ds := t1.takeWhile isDecDigit
  if ds = [] then .nan
  else if neg then (roundDouble (digitsVal ds)).neg else roundDouble (digitsVal ds)

/-! ## JavaScript values -/

/-- The primitive JavaScript values the component handles. -/
inductive JSVal where
  | undefined
  | null
  | bool (b : Bool)
  | num (n : JSNum)
  | str (s : String)
deriving DecidableEq

namespace JSVal

/-- `ToNumber` on a primitive value. -/
def toNumber : JSVal → JSNum
  | undefined => .nan
  | null => .fin 0
  | bool b => if b then .fin 1 else .fin 0
  | num n => n
  | str s => stringToNumber s

/-- `ToString` on a primitive value. -/
def toJSString : JSVal → String
  | undefined => "undefined"
  | null => "null"
  | bool b => if b then "true" else "false"
  | num n => n.toJSString
  | str s => s

end JSVal

/-- The global `parseFloat`: the argument is converted to a string first. -/
def parseFloat (v : JSVal) : JSNum := parseFloatStr v.toJSString

/-- The global `parseInt(v, 10)`: the argument is converted to a string first. -/
def parseInt10 (v : JSVal) : JSNum := parseIntStr v.toJSString

/-! ## Dates: `new Date(string)` and `toISOString` -/

/-- Whether year `y` is a leap year (`InLeapYear`). -/
def inLeapYear (y : ℤ) : Bool := decide ((y % 4 = 0 ∧ y % 100 ≠ 0) ∨ y % 400 = 0)

/-- Day number of the first day of year `y`, counted from 1 January 1970 (`DayFromYear`). -/
def dayFromYear (y : ℤ) : ℤ :=
  365 * (y - 1970) + (y - 1969) / 4 - (y - 1901) / 100 + (y - 1601) / 400

/-- Days of the year before month `m` (zero-based) begins. -/
def daysBeforeMonth (leap : Bool) (m : ℕ) : ℤ :=
  let l : ℤ := if leap then 1 else 0
  match m with
  | 0 => 0
  | 1 => 31
  | 2 => 59 + l
  | 3 => 90 + l
  | 4 => 120 + l
  | 5 => 151 + l
  | 6 => 181 + l
  | 7 => 212 + l
  | 8 => 243 + l
  | 9 => 273 + l
  | 10 => 304 + l
  | 11 => 334 + l
  | _ => 365 + l

/-- Number of days of month `m` (zero-based). -/
def daysInMonth (leap : Bool) (m : ℕ) : ℤ := daysBeforeMonth leap (m + 1) - daysBeforeMonth leap m

/-- The year containing day number `day` (`YearFromTime`): the largest `y`
with `dayFromYear y ≤ day`, found from the mean year length and one adjustment. -/
def yearFromDay (day : ℤ) : ℤ :=
  let y0 := 1970 + 400 * day / 146097
  if day < dayFromYear y0 then y0 - 1
  else if dayFromYear (y0 + 1) ≤ day then y0 + 1
  else y0

/-- Zero-based month of the day `doy` within a year (`MonthFromTime`). -/
def monthFromDoy (leap : Bool) (doy : ℤ) : ℕ :=
  if doy < daysBeforeMonth leap 1 then 0
  else if doy < daysBeforeMonth leap 2 then 1
  else if doy < daysBeforeMonth leap 3 then 2
  else if doy < daysBeforeMonth leap 4 then 3
  else if doy < daysBeforeMonth leap 5 then 4
  else if doy < daysBeforeMonth leap 6 then 5
  else if doy < daysBeforeMonth leap 7 then 6
  else if doy < daysBeforeMonth leap 8 then 7
  else if doy < daysBeforeMonth leap 9 then 8
  else if doy < daysBeforeMonth leap 10 then 9
  else if doy < daysBeforeMonth leap 11 then 10
  else 11

/-- Milliseconds per day. -/
def msPerDay : ℤ := 86400000

/-- Time value of a UTC calendar date and time of day (`MakeDate (MakeDay ..) (MakeTime ..)`),
month and day one-based. -/
def makeDate (y : ℤ) (mon day hh mm ss ms : ℕ) : ℤ :=
  (dayFromYear y + daysBeforeMonth (inLeapYear y) (mon - 1) + ((day : ℤ) - 1)) * msPerDay
    + (hh : ℤ) * 3600000 + (mm : ℤ) * 60000 + (ss : ℤ) * 1000 + (ms : ℤ)

/-- `TimeClip`: time values beyond 8.64e15 ms from the epoch are invalid. -/
def timeClip (t : ℤ) : Option ℤ := if |t| ≤ 8640000000000000 then some t else none

/-- A fixed-width field of `w` decimal digits at the head of the input. -/
def takeField (w : ℕ) (cs : List Char) : Option (ℕ × List Char) :=
  if w ≤ cs.length ∧ (cs.take w).all isDecDigit then some (digitsVal (cs.take w), cs.drop w)
  else none

/-- The year of a date-time string: `YYYY`, or a sign and six digits (`-000000` excluded). -/
def scanYear (cs : List Char) : Option (ℤ × List Char) :=
  match cs with
  | [] => none
  | c :: r =>
    if c = '+' then (takeField 6 r).map (fun p => ((p.1 : ℤ), p.2))
    else if c = '-' then
      match takeField 6 r with
      | some (y, r1) => if y = 0 then none else some (-(y : ℤ), r1)
      | none => none
    else (takeField 4 cs).map (fun p => ((p.1 : ℤ), p.2))

/-- An optional `-NN` field: its value, or the default when the input does not go on with `-`. -/
def scanDashField (dflt : ℕ) (cs : List Char) : Option (ℕ × List Char) :=
  match cs with
  | c :: r => if c = '-' then takeField 2 r else some (dflt, cs)
  | [] => some (dflt, cs)

/-- Milliseconds denoted by the digits after the decimal point of the seconds. -/
def fracMillis (ds : List Char) : ℕ := digitsVal ((ds ++ ['0', '0', '0']).take 3)

/-- The time of day after `T`: `HH:mm`, `HH:mm:ss` or `HH:mm:ss.s…`, in milliseconds
(`24:00:00` is the one time with hour 24). -/
def scanTime (cs : List Char) : Option (ℕ × List Char) :=
  match takeField 2 cs with
  | none => none
  | some (hh, r1) =>
    match r1 with
    | c1 :: r2 =>
      if c1 = ':' then
        match takeField 2 r2 with
        | none => none
        | some (mm, r3) =>
          let secs : Option (ℕ × ℕ × List Char) :=
            match r3 with
            | c3 :: r4 =>
              if c3 = ':' then
                match takeField 2 r4 with
                | none => none
                | some (ss, r5) =>
                  if r5.head? = some '.' ∧ r5.tail.takeWhile isDecDigit ≠ [] then
                    some (ss, fracMillis (r5.tail.takeWhile isDecDigit), r5.tail.dropWhile isDecDigit)
                  else some (ss, 0, r5)
              else some (0, 0, r3)
            | [] => some (0, 0, r3)
          match secs with
          | none => none
          | some (ss, ms, r6) =>
            if (hh ≤ 23 ∧ mm ≤ 59 ∧ ss ≤ 59) ∨ (hh = 24 ∧ mm = 0 ∧ ss = 0 ∧ ms = 0) then
              some (hh * 3600000 + mm * 60000 + ss * 1000 + ms, r6)
            else none
      else none
    | [] => none

/-- The time-zone designator closing a date-time string: `Z`, or a signed `HH:mm`
offset, as the milliseconds to subtract. -/
def scanZone (cs : List Char) : Option ℤ :=
  match cs with
  | [c] => if c = 'Z' then some 0 else none
  | c :: r =>
    if c = '+' ∨ c = '-' then
      match takeField 2 r with
      | some (oh, c2 :: r2) =>
        if c2 = ':' then
          match takeField 2 r2 with
          | some (om, []) =>
            if oh ≤ 23 ∧ om ≤ 59 then
              some ((if c = '+' then 1 else -1) * ((oh : ℤ) * 3600000 + (om : ℤ) * 60000))
            else none
          | _ => none
        else none
      | _ => none
    else none
  | [] => none

/-- The time value `new Date(s)` holds for a string in the ECMA-262 date-time
format that names its time zone (or gives a date only, read as UTC); `none`
stands for the invalid date (time value `NaN`).  Strings outside the format
are parsed in an implementation-defined way by the engines and are taken as
invalid here, as are forms in local time, which the component never builds:
the string it parses always ends in `:00Z`. -/
def dateParse (s : String) : Option ℤ :=
  match scanYear s.data with
  | none => none
  | some (y, r1) =>
    match scanDashField 1 r1 with
    | none => none
    | some (mon, r2) =>
      match (if r1 = r2 then some (1, r2) else scanDashField 1 r2) with
      | none => none
      | some (day, r3) =>
        if 1 ≤ mon ∧ mon ≤ 12 ∧ 1 ≤ day ∧ (day : ℤ) ≤ daysInMonth (inLeapYear y) (mon - 1) then
          match r3 with
          | [] => timeClip (makeDate y mon day 0 0 0 0)
          | c :: r4 =>
            if c = 'T' then
              match scanTime r4 with
              | none => none
              | some (tod, r5) =>
                match scanZone r5 with
                | none => none
                | some off => timeClip (makeDate y mon day 0 0 0 0 + (tod : ℤ) - off)
            else none
        else none

/-- Four-digit, zero-padded decimal representation (of a number below 10000). -/
def pad4 (n : ℕ) : List Char :=
  [digitChar (n / 1000 % 10), digitChar (n / 100 % 10), digitChar (n / 10 % 10), digitChar (n % 10)]

/-- Three-digit, zero-padded decimal representation (of a number below 1000). -/
def pad3 (n : ℕ) : List Char := [digitChar (n / 100 % 10), digitChar (n / 10 % 10), digitChar (n % 10)]

/-- Six-digit, zero-padded decimal representation (of a number below 1000000). -/
def pad6 (n : ℕ) : List Char := pad2 (n / 10000) ++ pad4 (n % 10000)

/-- The year as `toISOString` prints it: four digits for 0 to 9999, else a sign and six digits. -/
def isoYear (y : ℤ) : List Char :=
  if 0 ≤ y ∧ y ≤ 9999 then pad4 y.toNat
  else if 0 ≤ y then '+' :: pad6 y.toNat
  else '-' :: pad6 (-y).toNat

/-- `Date.prototype.toISOString` on a valid time value: `YYYY-MM-DDTHH:mm:ss.sssZ` in UTC. -/
def toISOString (t : ℤ) : String :=
  let day := t / msPerDay
  let tod := (t % msPerDay).toNat
  let y := yearFromDay day
  let doy := day - dayFromYear y
  let leap := inLeapYear y
  let m := monthFromDoy leap doy
  let d := (doy - daysBeforeMonth leap m + 1).toNat
  String.mk (isoYear y ++ '-' :: pad2 (m + 1) ++ '-' :: pad2 d ++ 'T' :: pad2 (tod / 3600000)
    ++ ':' :: pad2 (tod / 60000 % 60) ++ ':' :: pad2 (tod / 1000 % 60) ++ '.' :: pad3 (tod % 1000)
    ++ ['Z'])

/-! ## JSON data of HTTP responses -/

/-- A parsed JSON document, the `data` of an axios response. -/
inductive Json where
  | null
  | bool (b : Bool)
  | num (n : JSNum)
  | str (s : String)
  | arr (xs : List Json)
  | obj (kvs : List (String × Json))

/-- The last value bound to a key in a JSON object's member list (a repeated key keeps its last value). -/
def lookupKey (key : String) : List (String × Json) → Option Json
  | [] => none
  | (k, v) :: rest =>
    match lookupKey key rest with
    | some w => some w
    | none => if k = key then some v else none

/-- Property read `v.name` for a name that is neither an index nor a built-in
property of arrays and strings; `none` is `undefined`, and reading a property
of `undefined` or `null` throws a `TypeError` (`Except.error`). -/
def getProp (v : Option Json) (name : String) : Except Unit (Option Json) :=
  match v with
  | none => .error ()
  | some .null => .error ()
  | some (.obj kvs) => .ok (lookupKey name kvs)
  | some _ => .ok none

/-- Indexed read `v[0]`: the first element of an array, the first character of a
non-empty string, the member named `0` of an object. -/
def getFirst (v : Option Json) : Except Unit (Option Json) :=
  match v with
  | none => .error ()
  | some .null => .error ()
  | some (.arr xs) => .ok xs.head?
  | some (.obj kvs) => .ok (lookupKey "0" kvs)
  | some (.str s) => .ok (s.data.head?.map (fun c => .str (String.mk [c])))
  | some _ => .ok none

mutual
/-- `ToString` on a JSON value: arrays join their elements with commas, plain objects print as `[object Object]`. -/
def Json.toJSString : Json → String
  | .null => "null"
  | .bool b => if b then "true" else "false"
  | .num n => n.toJSString
  | .str s => s
  | .arr xs => Json.joinElems xs
  | .obj _ => "[object Object]"
/-- `Array.prototype.join` with the comma separator: `null` elements print as the empty string. -/
def Json.joinElems : List Json → String
  | [] => ""
  | [x] => Json.elemString x
  | x :: y :: rest => Json.elemString x ++ "," ++ Json.joinElems (y :: rest)
/-- The string of one array element inside `join`. -/
def Json.elemString : Json → String
  | .null => ""
  | .bool b => if b then "true" else "false"
  | .num n => n.toJSString
  | .str s => s
  | .arr xs => Json.joinElems xs
  | .obj _ => "[object Object]"
end

/-- `ToNumber` on a possibly undefined JSON value; arrays and objects convert through their string. -/
def jsonToNumber : Option Json → JSNum
  | none => .nan
  | some .null => .fin 0
  | some (.bool b) => if b then .fin 1 else .fin 0
  | some (.num n) => n
  | some (.str s) => stringToNumber s
  | some (.arr xs) => stringToNumber (Json.arr xs).toJSString
  | some (.obj _) => .nan

/-- What an awaited `axios.get` produced: a rejection (network failure or error status) or a response with its `data`. -/
inductive HttpResult where
  | rejected
  | resolved (data : Json)

/-! ## Component state -/

/-- A stored coordinate object `{ lat, lon }`; `ref` is the identity of the object, which `useEffect` compares. -/
structure Coords where
  ref : ℕ
  lat : Option Json
  lon : Option Json

/-- The `rideData` state object. -/
structure RideData where
  startLocation : String
  endLocation : String
  rideDate : String
  rideTime : String
  availableSeats : JSVal
  startCoords : Option Coords
  endCoords : Option Coords

/-- The state cells of the component, with the console output and the next free object identity. -/
structure State where
  rideData : RideData
  errorMessage : String
  isLoading : Bool
  successMessage : String
  distance : Option String
  priceEstimate : Option String
  console : List String
  nextRef : ℕ

/-- The `rideData` the component mounts with. -/
def initialRideData : RideData where
  startLocation := ""
  endLocation := ""
  rideDate := ""
  rideTime := ""
  availableSeats := .num (.fin 1)
  startCoords := none
  endCoords := none

/-- The state the component mounts with. -/
def initialState : State where
  rideData := initialRideData
  errorMessage := ""
  isLoading := false
  successMessage := ""
  distance := none
  priceEstimate := none
  console := []
  nextRef := 0

/-- A state cell holding `null` or a string, as a JavaScript value. -/
def cellVal : Option String → JSVal
  | none => .null
  | some s => .str s

/-! ## Price estimation -/

/-- The numeric literal `q` of the source text, as the Number it denotes. -/
def numLit (q : ℚ) : JSNum := roundDouble q

/-- Fare per kilometre, `const baseFarePerKm = 13`. -/
def baseFarePerKm : JSNum := numLit 13

/-- Keys of `trafficMultipliers`. -/
inductive Traffic where
  | light
  | moderate
  | heavy

/-- Keys of `roadTypeMultipliers`. -/
inductive RoadType where
  | highway
  | city

/-- The table `{ light: 1, moderate: 1.2, heavy: 1.5 }`. -/
def trafficMultipliers : Traffic → JSNum
  | .light => numLit 1
  | .moderate => numLit (12 / 10)
  | .heavy => numLit (15 / 10)

/-- The table `{ highway: 1, city: 1.3 }`. -/
def roadTypeMultipliers : RoadType → JSNum
  | .highway => numLit 1
  | .city => numLit (13 / 10)

/-- `calculatePriceEstimate(distance)`: distance times the base fare times the
moderate-traffic and highway multipliers, stored with `toFixed(2)`. -/
def calculatePriceEstimate (st : State) (distance : JSVal) : State :=
  let trafficMultiplier := trafficMultipliers .moderate
  let roadTypeMultiplier := roadTypeMultipliers .highway
  let basePrice := distance.toNumber.mul baseFarePerKm
  let finalPrice := (basePrice.mul trafficMultiplier).mul roadTypeMultiplier
  { st with priceEstimate := some finalPrice.toFixed2 }

/-! ## Route distance -/

/-- The read `response.data.features[0].properties.segments[0].distance`. -/
def extractDistance (data : Json) : Except Unit (Option Json) := do
  let features ← getProp (some data) "features"
  let feature ← getFirst features
  let properties ← getProp feature "properties"
  let segments ← getProp properties "segments"
  let segment ← getFirst segments
  getProp segment "distance"

/-- Whether the awaited routing call makes the `try` block of `calculateDistance` throw. -/
def routingFails : HttpResult → Bool
  | .rejected => true
  | .resolved data =>
    match extractDistance data with
    | .error _ => true
    | .ok _ => false

/-- `calculateDistance()`, given what the routing request produced. -/
def calculateDistance (st : State) (routing : HttpResult) : State :=
  if st.rideData.startCoords.isNone ∨ st.rideData.endCoords.isNone then st
  else
    let st1 := { st with isLoading := true }
    let caught : State := { st1 with console := st1.console ++ ["Error calculating distance:"] }
    let st2 : State :=
      match routing with
      | .rejected => caught
      | .resolved data =>
        match extractDistance data with
        | .error _ => caught
        | .ok distanceInMeters =>
          let distanceInKm := ((jsonToNumber distanceInMeters).div (numLit 1000)).toFixed2
          calculatePriceEstimate { st1 with distance := some distanceInKm } (.str distanceInKm)
    { st2 with isLoading := false }

/-! ## Geocoding -/

/-- Number of UTF-16 code units of a string, its `length`. -/
def utf16Length (s : String) : ℕ := (s.data.map (fun c => if c.toNat < 65536 then 1 else 2)).sum

/-- The read `v.length`. -/
def getLength (v : Option Json) : Except Unit (Option Json) :=
  match v with
  | none => .error ()
  | some .null => .error ()
  | some (.arr xs) => .ok (some (.num (.fin xs.length)))
  | some (.str s) => .ok (some (.num (.fin (utf16Length s))))
  | some (.obj kvs) => .ok (lookupKey "length" kvs)
  | some _ => .ok none

/-- The comparison `n > 0` on a Number. -/
def gtZero : JSNum → Bool
  | .posInf => true
  | .fin q => decide (0 < q)
  | _ => false

/-- The `type` argument of `fetchCoordinates`: `'start'`, or anything else (`'end'`). -/
inductive CoordType where
  | start
  | end_
deriving DecidableEq

/-- `fetchCoordinates(address, type)`, given what the geocoding request produced: with a
non-empty result the `lat` and `lon` of the first entry are stored in a fresh object,
under `startCoords` for `'start'` and under `endCoords` otherwise. -/
def fetchCoordinates (st : State) (type : CoordType) (geocoding : HttpResult) : State :=
  let caught : State := { st with console := st.console ++ ["Error fetching coordinates:"] }
  match geocoding with
  | .rejected => caught
  | .resolved data =>
    match getLength (some data) with
    | .error _ => caught
    | .ok len =>
      if gtZero (jsonToNumber len) then
        match getFirst (some data) with
        | .error _ => caught
        | .ok first =>
          match getProp first "lat", getProp first "lon" with
          | .ok lat, .ok lon =>
            let coords : Coords := { ref := st.nextRef, lat := lat, lon := lon }
            match type with
            | .start =>
              { st with rideData := { st.rideData with startCoords := some coords }
                        nextRef := st.nextRef + 1 }
            | .end_ =>
              { st with rideData := { st.rideData with endCoords := some coords }
                        nextRef := st.nextRef + 1 }
          | _, _ => caught
      else st

/-- The `fieldName` of a location search box. -/
inductive LocationField where
  | startLocation
  | endLocation
deriving DecidableEq

/-- `handleSelectLocation(value, fieldName)`: store the chosen text, then geocode it. -/
def handleSelectLocation (st : State) (value : String) (fieldName : LocationField)
    (geocoding : HttpResult) : State :=
  match fieldName with
  | .startLocation =>
    fetchCoordinates { st with rideData := { st.rideData with startLocation := value } }
      .start geocoding
  | .endLocation =>
    fetchCoordinates { st with rideData := { st.rideData with endLocation := value } }
      .end_ geocoding

/-! ## Field edits and the route effect -/

/-- The `name` of a form control wired to `handleChange`. -/
inductive FieldName where
  | rideDate
  | rideTime
  | availableSeats
deriving DecidableEq

/-- `handleChange(e)`: `setRideData({ ...rideData, [e.target.name]: e.target.value })`. -/
def handleChange (st : State) (name : FieldName) (value : String) : State :=
  match name with
  | .rideDate => { st with rideData := { st.rideData with rideDate := value } }
  | .rideTime => { st with rideData := { st.rideData with rideTime := value } }
  | .availableSeats => { st with rideData := { st.rideData with availableSeats := .str value } }

/-- `Object.is` on two values of a coordinate cell: both `null`, or the same object. -/
def sameObject (a b : Option Coords) : Bool := decide (a.map Coords.ref = b.map Coords.ref)

/-- Whether the effect with dependencies `[rideData.startCoords, rideData.endCoords]`
runs after a render that follows the state `prev`. -/
def routeEffectDue (prev next : State) : Bool :=
  !(sameObject prev.rideData.startCoords next.rideData.startCoords
    && sameObject prev.rideData.endCoords next.rideData.endCoords)

/-- The render after an update from `prev` to `next`: when a dependency changed the
effect runs, and with both coordinates set it calls `calculateDistance`. -/
def afterRender (prev next : State) (routing : HttpResult) : State :=
  if routeEffectDue prev next then
    (if next.rideData.startCoords.isSome ∧ next.rideData.endCoords.isSome then
      calculateDistance next routing
    else next)
  else next

/-- The property `rideData[name]` for the name of a form control. -/
def RideData.get (r : RideData) : FieldName → JSVal
  | .rideDate => .str r.rideDate
  | .rideTime => .str r.rideTime
  | .availableSeats => r.availableSeats

/-! ## Submission -/

/-- The object passed to `createRide`. -/
structure Payload where
  startLocation : String
  endLocation : String
  rideDate : String
  rideTime : String
  availableSeats : JSNum
  price : JSNum
deriving DecidableEq

/-- The `data` of an error response, with its optional human-readable message. -/
structure ErrorData where
  message : Option String

/-- The `response` of a failed request. -/
structure ErrorResponse where
  data : Option ErrorData

/-- The error `createRide` rejects with; `response` is absent when no response arrived. -/
structure ApiError where
  response : Option ErrorResponse

/-- The optional chain `error.response?.data?.message`. -/
def ApiError.serverMessage (e : ApiError) : Option String :=
  match e.response with
  | none => none
  | some r =>
    match r.data with
    | none => none
    | some d => d.message

/-- Where `handleSubmit` stands when it first suspends or leaves. -/
inductive SubmitStep where
  | blocked (st : State)
  | threw (st : State)
  | request (st : State) (payload : Payload)

/-- The synchronous part of `handleSubmit`: clear the messages, validate the
price, build the payload (an invalid date makes `toISOString` throw). -/
def handleSubmitBegin (st : State) : SubmitStep :=
  let st1 := { st with errorMessage := "", successMessage := "", isLoading := true }
  let priceInNumber := parseFloat (cellVal st.priceEstimate)
  if priceInNumber.isNaN then
    .blocked { st1 with errorMessage := "Invalid price estimate", isLoading := false }
  else
    match dateParse (st.rideData.rideDate ++ "T" ++ st.rideData.rideTime ++ ":00Z") with
    | none => .threw st1
    | some rideDateTime =>
      .request { st1 with console := st1.console ++ ["Submitting cleaned ride data:"] }
        { startLocation := st.rideData.startLocation
          endLocation := st.rideData.endLocation
          rideDate := st.rideData.rideDate
          rideTime := toISOString rideDateTime
          availableSeats := parseInt10 st.rideData.availableSeats
          price := priceInNumber }

/-- The part of `handleSubmit` after `await createRide(..)`. -/
def handleSubmitResume (st : State) (result : Except ApiError Unit) : State :=
  match result with
  | .ok _ => { st with isLoading := false, successMessage := "Ride created successfully!" }
  | .error error =>
    { st with
      isLoading := false
      errorMessage :=
        match error.serverMessage with
        | some m => if m ≠ "" then m else "An unexpected error occurred"
        | none => "An unexpected error occurred" }

/-- What a run of `handleSubmit` leaves: the final state, the payload `createRide`
was called with (if it was called), and whether an exception escaped. -/
structure SubmitOutcome where
  final : State
  sent : Option Payload
  threw : Bool

/-- `handleSubmit(e)`, given how the backend answers a payload. -/
def handleSubmit (st : State) (createRide : Payload → Except ApiError Unit) : SubmitOutcome :=
  match handleSubmitBegin st with
  | .blocked st1 => { final := st1, sent := none, threw := false }
  | .threw st1 => { final := st1, sent := none, threw := true }
  | .request st1 payload =>
    { final := handleSubmitResume st1 (createRide payload), sent := some payload, threw := false }

/-! ## Events and runs of the form -/

/-- The coordinate cell of the draft that a `type` of `fetchCoordinates` writes. -/
def RideData.coords (r : RideData) : CoordType → Option Coords
  | .start => r.startCoords
  | .end_ => r.endCoords

/-- The `type` that `handleSelectLocation` passes on for a search box:
`fieldName === 'startLocation' ? 'start' : 'end'`. -/
def LocationField.coordType : LocationField → CoordType
  | .startLocation => .start
  | .endLocation => .end_

/-- The first result of a geocoding answer, when `fetchCoordinates` finds one: the
request resolved, `response.data.length > 0` holds, and `response.data[0]` is neither
`undefined` nor `null` (so that `lat` and `lon` can be read from it). -/
def firstResult : HttpResult → Option Json
  | .rejected => none
  | .resolved data =>
    match getLength (some data) with
    | .error _ => none
    | .ok len =>
      if gtZero (jsonToNumber len) then
        match getFirst (some data) with
        | .ok (some .null) => none
        | .ok (some first) => some first
        | _ => none
      else none

/-- What can happen to the mounted form: an edit of a plain field, the selection of a
place together with the answer of the geocoding service, a submission together with
the answer of the backend. -/
inductive Event where
  | change (name : FieldName) (value : String)
  | select (value : String) (fieldName : LocationField) (geocoding : HttpResult)
  | submit (createRide : Payload → Except ApiError Unit)

/-- Whether an event is a successful geocoding resolution for the field of the
coordinate `t`: a place selected in that field's search box, answered with a first result. -/
def Event.resolves (t : CoordType) : Event → Bool
  | .select _ fieldName geocoding =>
    decide (fieldName.coordType = t) && (firstResult geocoding).isSome
  | _ => false

/-- The handler an event runs. -/
def handleEvent (st : State) : Event → State
  | .change name value => handleChange st name value
  | .select value fieldName geocoding => handleSelectLocation st value fieldName geocoding
  | .submit createRide => (handleSubmit st createRide).final

/-- One event and the render that follows it; the second component is what the routing
service answers should the route effect run. -/
def step (st : State) (ev : Event × HttpResult) : State :=
  afterRender st (handleEvent st ev.1) ev.2

/-- The state after a sequence of events. -/
def run (st : State) (evs : List (Event × HttpResult)) : State := evs.foldl step st

/-! ## The price as the specification states it -/

/-- The text of `n` hundredths with two decimals: the form in which `calculateDistance`
hands on a distance and in which a price estimate is shown. -/
def twoDecimals (n : ℕ) : String := String.mk (natDigits (n / 100) ++ '.' :: pad2 (n % 100))

/-- The price the specification states for a distance: `d * 13 * 1.2 * 1.0`, in exact arithmetic. -/
def exactPrice (d : ℚ) : ℚ := d * 13 * (12 / 10) * 1

/-- A non-negative amount rounded to two decimal places, as a number of hundredths. -/
def roundTo2 (x : ℚ) : ℕ := ⌊x * 100 + 1 / 2⌋.toNat

/-! ## Dates and times as the form controls deliver them -/

/-- The text `YYYY-MM-DD` of a calendar date, the value of a date input. -/
def isoDate (y m d : ℕ) : String := String.mk (pad4 y ++ '-' :: pad2 m ++ '-' :: pad2 d)

/-- The text `HH:MM` of a time of day, the value of a time input. -/
def isoTime (hh mi : ℕ) : String := String.mk (pad2 hh ++ ':' :: pad2 mi)

/-- A calendar date that exists: year 0 to 9999, month 1 to 12, day within the month. -/
def validDate (y m d : ℕ) : Prop :=
  y ≤ 9999 ∧ 1 ≤ m ∧ m ≤ 12 ∧ 1 ≤ d ∧ (d : ℤ) ≤ daysInMonth (inLeapYear y) (m - 1)

/-- A time of day that exists: hour 0 to 23, minute 0 to 59. -/
def validTime (hh mi : ℕ) : Prop := hh ≤ 23 ∧ mi ≤ 59

/-- Month and day recovered from the day of the year, checked for every day of both kinds of year. -/
def monthDayOk (leap : Bool) (m d : ℕ) : Bool :=
  !(decide (1 ≤ d) && decide ((d : ℤ) ≤ daysInMonth leap m)) ||
    (decide (monthFromDoy leap (daysBeforeMonth leap m + ((d : ℤ) - 1)) = m) &&
     decide (0 ≤ daysBeforeMonth leap m) &&
     decide (daysBeforeMonth leap m + ((d : ℤ) - 1) < (if leap then 366 else 365)) &&
     decide (daysInMonth leap m ≤ 31))

/-! ## Example states -/

/-- A form in the Estimated state: both places resolved, a 10.00 km route priced at 156.00. -/
def estimatedState : State where
  rideData :=
    { startLocation := "A"
      endLocation := "B"
      rideDate := "2024-05-01"
      rideTime := "14:30"
      availableSeats := .str "2"
      startCoords := some { ref := 0, lat := some (.str "12.9"), lon := some (.str "77.6") }
      endCoords := some { ref := 1, lat := some (.str "13.0"), lon := some (.str "77.7") } }
  errorMessage := ""
  isLoading := false
  successMessage := ""
  distance := some "10.00"
  priceEstimate := some "156.00"
  console := []
  nextRef := 2

/-- The form with both places resolved (start A at 12.9, 77.6 and end B at 13.0, 77.7)
and no route computed yet. -/
def locatedState : State := { estimatedState with distance := none, priceEstimate := none }

/-- The Estimated form with the seats field edited to the given text. -/
def withSeats (seats : String) : State := handleChange estimatedState .availableSeats seats

/-- The Estimated form with the given price estimate in place of the computed one. -/
def withPrice (price : Option String) : State := { estimatedState with priceEstimate := price }

/-- A backend that accepts every ride. -/
def acceptAll : Payload → Except ApiError Unit := fun _ => .ok ()

/-- A backend that rejects every ride with the given error. -/
def rejectAll (e : ApiError) : Payload → Except ApiError Unit := fun _ => .error e

/-- A routing response whose first segment carries no `distance`. -/
def segmentWithoutDistance : Json :=
  .obj [("features", .arr [.obj [("properties", .obj [("segments", .arr [.obj []])])]])]

/-- A routing response whose first segment reports the given distance in metres. -/
def routeOf (metres : ℚ) : Json :=
  .obj [("features", .arr [.obj [("properties",
    .obj [("segments", .arr [.obj [("distance", .num (roundDouble metres))]])])]])]

/-- A routing response with an empty feature list. -/
def noFeatures : Json := .obj [("features", .arr [])]

/-- The payload the Estimated example form submits. -/
def estimatedPayload : Payload where
  startLocation := "A"
  endLocation := "B"
  rideDate := "2024-05-01"
  rideTime := "2024-05-01T14:30:00.000Z"
  availableSeats := .fin 2
  price := .fin 156

/-- A geocoding response with one result, at the given latitude and longitude. -/
def oneResult (lat lon : String) : Json :=
  .arr [.obj [("place_id", .num (.fin 1)), ("lat", .str lat), ("lon", .str lon)]]

/-- The text of a stored latitude or longitude, when it is a string. -/
def coordText : Option Json → String
  | some (.str s) => s
  | _ => ""

/-- An error response carrying a message from the server. -/
def serverError (m : String) : ApiError := { response := some { data := some { message := some m } } }

/-! ## Submission: what `handleSubmit` checks and sends -/

theorem handleSubmitBegin_of_nan (st : State)
    (h : (parseFloat (cellVal st.priceEstimate)).isNaN = true) :
    handleSubmitBegin st =
      .blocked { st with errorMessage := "Invalid price estimate", successMessage := "",
                         isLoading := false } := by
  simp [handleSubmitBegin, h]

theorem handleSubmitBegin_of_valid (st : State) (t : ℤ)
    (h : (parseFloat (cellVal st.priceEstimate)).isNaN = false)
    (ht : dateParse (st.rideData.rideDate ++ "T" ++ st.rideData.rideTime ++ ":00Z") = some t) :
    handleSubmitBegin st =
      .request { st with errorMessage := "", successMessage := "", isLoading := true,
                         console := st.console ++ ["Submitting cleaned ride data:"] }
        { startLocation := st.rideData.startLocation
          endLocation := st.rideData.endLocation
          rideDate := st.rideData.rideDate
          rideTime := toISOString t
          availableSeats := parseInt10 st.rideData.availableSeats
          price := parseFloat (cellVal st.priceEstimate) } := by
  simp [handleSubmitBegin, h, ht]

theorem handleSubmit_sent_cases (st : State) (createRide : Payload → Except ApiError Unit)
    (p : Payload) (h : (handleSubmit st createRide).sent = some p) :
    ∃ st1, handleSubmitBegin st = .request st1 p := by
  unfold handleSubmit at h
  split at h
  · simp at h
  · simp at h
  · rename_i st1 q heq
    simp at h
    exact ⟨st1, by rw [heq, h]⟩

theorem handleSubmitBegin_request_inv (st st1 : State) (p : Payload)
    (h : handleSubmitBegin st = .request st1 p) :
    (parseFloat (cellVal st.priceEstimate)).isNaN = false ∧
    st1 = { st with errorMessage := "", successMessage := "", isLoading := true,
                    console := st.console ++ ["Submitting cleaned ride data:"] } ∧
    ∃ t, dateParse (st.rideData.rideDate ++ "T" ++ st.rideData.rideTime ++ ":00Z") = some t ∧
      p = { startLocation := st.rideData.startLocation
            endLocation := st.rideData.endLocation
            rideDate := st.rideData.rideDate
            rideTime := toISOString t
            availableSeats := parseInt10 st.rideData.availableSeats
            price := parseFloat (cellVal st.priceEstimate) } := by
  unfold handleSubmitBegin at h
  by_cases hn : (parseFloat (cellVal st.priceEstimate)).isNaN = true
  · simp [hn] at h
  · simp only [hn] at h
    cases hd : dateParse (st.rideData.rideDate ++ "T" ++ st.rideData.rideTime ++ ":00Z") with
    | none => simp [hd] at h
    | some t =>
      simp [hd] at h
      refine ⟨by simpa using hn, h.1.symm, t, rfl, h.2.symm⟩

/-- C3, the claim as stated, fails: with seats `"0"` and with seats `"abc"` the
Estimated form is submitted all the same; `createRide` receives `availableSeats`
0 and `NaN`. -/
theorem seats_zero_or_text_is_submitted :
    (handleSubmit (withSeats "0") acceptAll).sent.isSome = true ∧
    (handleSubmit (withSeats "0") acceptAll).sent.map Payload.availableSeats = some (.fin 0) ∧
    (handleSubmit (withSeats "abc") acceptAll).sent.isSome = true ∧
    (handleSubmit (withSeats "abc") acceptAll).sent.map Payload.availableSeats = some .nan := by
  decide!

/-- C3, amended: `handleSubmit` does not validate the seats.  Whenever the price
estimate parses to a number and the date and time form a valid timestamp,
`createRide` is called whatever `availableSeats` holds, and the payload carries
`parseInt(availableSeats, 10)`. -/
theorem handleSubmit_sends_unvalidated_seats (st : State)
    (createRide : Payload → Except ApiError Unit) (t : ℤ)
    (hprice : (parseFloat (cellVal st.priceEstimate)).isNaN = false)
    (hdate : dateParse (st.rideData.rideDate ++ "T" ++ st.rideData.rideTime ++ ":00Z") = some t) :
    ∃ p, (handleSubmit st createRide).sent = some p ∧
      p.availableSeats = parseInt10 st.rideData.availableSeats := by
  refine ⟨⟨st.rideData.startLocation, st.rideData.endLocation, st.rideData.rideDate,
    toISOString t, parseInt10 st.rideData.availableSeats,
    parseFloat (cellVal st.priceEstimate)⟩, ?_, rfl⟩
  simp only [handleSubmit, handleSubmitBegin_of_valid st t hprice hdate]

/-- C3 amended, at the Estimated form with seats `-3`. -/
theorem handleSubmit_sends_unvalidated_seats_witness :
    (parseFloat (cellVal (withSeats "-3").priceEstimate)).isNaN = false ∧
    dateParse ((withSeats "-3").rideData.rideDate ++ "T" ++ (withSeats "-3").rideData.rideTime
      ++ ":00Z") = some 1714573800000 ∧
    ∃ p, (handleSubmit (withSeats "-3") acceptAll).sent = some p ∧
      p.availableSeats = parseInt10 (withSeats "-3").rideData.availableSeats :=
  ⟨by decide!, by decide!,
    handleSubmit_sends_unvalidated_seats (withSeats "-3") acceptAll 1714573800000
      (by decide!) (by decide!)⟩

/-- C4, the claim as stated, fails: a price estimate of `0.00`, a negative one and an
infinite one all pass the check, and `createRide` is called with price 0, -15.6 and
`Infinity`. -/
theorem price_zero_negative_infinite_is_submitted :
    (handleSubmit (withPrice (some "0.00")) acceptAll).sent.map Payload.price = some (.fin 0) ∧
    (handleSubmit (withPrice (some "-15.60")) acceptAll).sent.map Payload.price
      = some (.fin (-8782019273372467 / 562949953421312)) ∧
    (handleSubmit (withPrice (some "Infinity")) acceptAll).sent.map Payload.price
      = some .posInf := by
  decide!

/-- C4, amended: `handleSubmit` calls `createRide` only if `parseFloat(priceEstimate)`
is not `NaN`; when the price estimate is absent or does not parse to a number the
submission is blocked, the message is `Invalid price estimate` and `isLoading` is
reset to false.  (Zero, negative and infinite estimates are let through.) -/
theorem handleSubmit_blocks_exactly_nan_price (st : State)
    (createRide : Payload → Except ApiError Unit) :
    ((handleSubmit st createRide).sent.isSome = true →
      (parseFloat (cellVal st.priceEstimate)).isNaN = false) ∧
    ((parseFloat (cellVal st.priceEstimate)).isNaN = true →
      (handleSubmit st createRide).sent = none ∧
      (handleSubmit st createRide).threw = false ∧
      (handleSubmit st createRide).final.errorMessage = "Invalid price estimate" ∧
      (handleSubmit st createRide).final.isLoading = false) ∧
    (st.priceEstimate = none → (parseFloat (cellVal st.priceEstimate)).isNaN = true) := by
  refine ⟨?_, ?_, ?_⟩
  · intro h
    cases hs : (handleSubmit st createRide).sent with
    | none => simp [hs] at h
    | some p =>
      obtain ⟨st1, h1⟩ := handleSubmit_sent_cases st createRide p hs
      exact (handleSubmitBegin_request_inv st st1 p h1).1
  · intro h
    simp [handleSubmit, handleSubmitBegin_of_nan st h]
  · intro h
    rw [h]
    decide!

/-- C4 amended, at the Estimated form with the price estimate `NaN`. -/
theorem handleSubmit_blocks_exactly_nan_price_witness :
    (parseFloat (cellVal (withPrice (some "NaN")).priceEstimate)).isNaN = true ∧
    (handleSubmit (withPrice (some "NaN")) acceptAll).sent = none ∧
    (handleSubmit (withPrice (some "NaN")) acceptAll).threw = false ∧
    (handleSubmit (withPrice (some "NaN")) acceptAll).final.errorMessage
      = "Invalid price estimate" ∧
    (handleSubmit (withPrice (some "NaN")) acceptAll).final.isLoading = false :=
  ⟨by decide!,
    (handleSubmit_blocks_exactly_nan_price (withPrice (some "NaN")) acceptAll).2.1 (by decide!)⟩

/-! ## Route distance: what a failed routing call leaves behind -/

theorem calculateDistance_of_failure (st : State) (routing : HttpResult)
    (hs : st.rideData.startCoords.isSome = true) (he : st.rideData.endCoords.isSome = true)
    (hf : routingFails routing = true) :
    calculateDistance st routing =
      { st with isLoading := false, console := st.console ++ ["Error calculating distance:"] } := by
  have hs1 : st.rideData.startCoords.isNone = false := by
    cases h : st.rideData.startCoords <;> simp_all
  have he1 : st.rideData.endCoords.isNone = false := by
    cases h : st.rideData.endCoords <;> simp_all
  unfold calculateDistance
  simp only [hs1, he1, Bool.false_eq_true, or_self, if_false]
  cases routing with
  | rejected => rfl
  | resolved data =>
    simp only [routingFails] at hf
    cases hx : extractDistance data with
    | error e => simp only [hx]
    | ok v => simp [hx] at hf

/-- C6, the claim as stated, fails for a malformed response that can still be read:
when the first segment carries no `distance`, nothing throws, and the 10.00 km and
156.00 shown before are replaced by `NaN`. -/
theorem malformed_response_overwrites_estimate :
    estimatedState.rideData.startCoords.isSome = true ∧
    estimatedState.rideData.endCoords.isSome = true ∧
    estimatedState.distance = some "10.00" ∧
    estimatedState.priceEstimate = some "156.00" ∧
    (calculateDistance estimatedState (.resolved segmentWithoutDistance)).distance = some "NaN" ∧
    (calculateDistance estimatedState (.resolved segmentWithoutDistance)).priceEstimate
      = some "NaN" := by
  decide!

/-- C6, amended: when the routing call in `calculateDistance` throws after both
coordinates are set (the request is rejected, or the response has no
`features[0].properties.segments[0]` to read `distance` from), the previously
computed distance and price estimate are left unchanged and `isLoading` is false
afterwards. -/
theorem calculateDistance_failure_keeps_estimate (st : State) (routing : HttpResult)
    (hs : st.rideData.startCoords.isSome = true) (he : st.rideData.endCoords.isSome = true)
    (hf : routingFails routing = true) :
    (calculateDistance st routing).distance = st.distance ∧
    (calculateDistance st routing).priceEstimate = st.priceEstimate ∧
    (calculateDistance st routing).isLoading = false := by
  rw [calculateDistance_of_failure st routing hs he hf]
  exact ⟨rfl, rfl, rfl⟩

/-- C6 amended, at the Estimated form and a response with an empty feature list. -/
theorem calculateDistance_failure_keeps_estimate_witness :
    estimatedState.rideData.startCoords.isSome = true ∧
    estimatedState.rideData.endCoords.isSome = true ∧
    routingFails (.resolved noFeatures) = true ∧
    (calculateDistance estimatedState (.resolved noFeatures)).distance
      = estimatedState.distance ∧
    (calculateDistance estimatedState (.resolved noFeatures)).priceEstimate
      = estimatedState.priceEstimate ∧
    (calculateDistance estimatedState (.resolved noFeatures)).isLoading = false :=
  ⟨by decide!, by decide!, by decide!,
    calculateDistance_failure_keeps_estimate estimatedState (.resolved noFeatures)
      (by decide!) (by decide!) (by decide!)⟩

/-- C7, the claim as stated, fails: after a rejected routing request, and after a
response with an empty feature list, the error message shown by the alert region is
still the empty string. -/
theorem routing_failure_shows_no_message :
    estimatedState.rideData.startCoords.isSome = true ∧
    estimatedState.rideData.endCoords.isSome = true ∧
    (calculateDistance estimatedState .rejected).errorMessage = "" ∧
    (calculateDistance estimatedState (.resolved noFeatures)).errorMessage = "" := by
  decide!

/-- C7, amended: when the routing call in `calculateDistance` fails after both
coordinates are set, the failure is only written to the console
(`Error calculating distance:`); the error message and the success message shown to
the user are left as they were. -/
theorem calculateDistance_failure_logs_only (st : State) (routing : HttpResult)
    (hs : st.rideData.startCoords.isSome = true) (he : st.rideData.endCoords.isSome = true)
    (hf : routingFails routing = true) :
    (calculateDistance st routing).errorMessage = st.errorMessage ∧
    (calculateDistance st routing).successMessage = st.successMessage ∧
    (calculateDistance st routing).console = st.console ++ ["Error calculating distance:"] := by
  rw [calculateDistance_of_failure st routing hs he hf]
  exact ⟨rfl, rfl, rfl⟩

/-- C7 amended, at the Estimated form (time edited) and a rejected request. -/
theorem calculateDistance_failure_logs_only_witness :
    (handleChange estimatedState .rideTime "09:15").rideData.startCoords.isSome = true ∧
    (handleChange estimatedState .rideTime "09:15").rideData.endCoords.isSome = true ∧
    routingFails .rejected = true ∧
    (calculateDistance (handleChange estimatedState .rideTime "09:15") .rejected).errorMessage
      = (handleChange estimatedState .rideTime "09:15").errorMessage ∧
    (calculateDistance (handleChange estimatedState .rideTime "09:15") .rejected).successMessage
      = (handleChange estimatedState .rideTime "09:15").successMessage ∧
    (calculateDistance (handleChange estimatedState .rideTime "09:15") .rejected).console
      = (handleChange estimatedState .rideTime "09:15").console
        ++ ["Error calculating distance:"] :=
  ⟨by decide!, by decide!, by decide!,
    calculateDistance_failure_logs_only (handleChange estimatedState .rideTime "09:15") .rejected
      (by decide!) (by decide!) (by decide!)⟩

/-! ## Submission: after `createRide` answers -/

theorem handleSubmit_of_request (st st1 : State) (p : Payload)
    (createRide : Payload → Except ApiError Unit)
    (h : handleSubmitBegin st = .request st1 p) :
    handleSubmit st createRide =
      { final := handleSubmitResume st1 (createRide p), sent := some p, threw := false } := by
  simp only [handleSubmit, h]

/-- C8, the claim as stated, fails: after `createRide` succeeds the draft still
holds every value the user entered, and submitting again sends the same payload a
second time. -/
theorem draft_survives_successful_submit :
    (handleSubmit estimatedState acceptAll).sent = some estimatedPayload ∧
    (handleSubmit estimatedState acceptAll).final.successMessage = "Ride created successfully!" ∧
    (handleSubmit estimatedState acceptAll).final.rideData.startLocation = "A" ∧
    (handleSubmit estimatedState acceptAll).final.rideData.endLocation = "B" ∧
    (handleSubmit estimatedState acceptAll).final.rideData.rideDate = "2024-05-01" ∧
    (handleSubmit estimatedState acceptAll).final.rideData.rideTime = "14:30" ∧
    (handleSubmit estimatedState acceptAll).final.rideData.availableSeats = .str "2" ∧
    (handleSubmit estimatedState acceptAll).final.rideData.startCoords.isSome = true ∧
    (handleSubmit estimatedState acceptAll).final.rideData.endCoords.isSome = true ∧
    (handleSubmit (handleSubmit estimatedState acceptAll).final acceptAll).sent
      = some estimatedPayload := by
  decide!

/-- C8, amended: when `createRide` succeeds, `handleSubmit` shows the success
message and resets `isLoading`; the draft, the distance and the price estimate are
left exactly as they were (nothing is cleared), so submitting again without new
input sends the same payload again. -/
theorem handleSubmit_success_keeps_draft (st : State)
    (createRide : Payload → Except ApiError Unit) (p : Payload)
    (hsent : (handleSubmit st createRide).sent = some p) (hok : createRide p = .ok ()) :
    (handleSubmit st createRide).final.successMessage = "Ride created successfully!" ∧
    (handleSubmit st createRide).final.isLoading = false ∧
    (handleSubmit st createRide).final.rideData = st.rideData ∧
    (handleSubmit st createRide).final.distance = st.distance ∧
    (handleSubmit st createRide).final.priceEstimate = st.priceEstimate ∧
    (handleSubmit (handleSubmit st createRide).final createRide).sent = some p := by
  obtain ⟨st1, h1⟩ := handleSubmit_sent_cases st createRide p hsent
  obtain ⟨hn, hst1, t, ht, hp⟩ := handleSubmitBegin_request_inv st st1 p h1
  have hfin : (handleSubmit st createRide).final =
      { st1 with isLoading := false, successMessage := "Ride created successfully!" } := by
    rw [handleSubmit_of_request st st1 p createRide h1]
    simp only [handleSubmitResume, hok]
  have hbegin := handleSubmitBegin_of_valid
    ⟨st.rideData, "", false, "Ride created successfully!", st.distance, st.priceEstimate,
      st.console ++ ["Submitting cleaned ride data:"], st.nextRef⟩ t hn ht
  rw [← hp] at hbegin
  rw [hfin, hst1]
  exact ⟨rfl, rfl, rfl, rfl, rfl,
    congrArg SubmitOutcome.sent (handleSubmit_of_request _ _ p createRide hbegin)⟩

/-- C8 amended, at the Estimated form with three seats and a backend that accepts. -/
theorem handleSubmit_success_keeps_draft_witness :
    (handleSubmit (withSeats "3") acceptAll).sent
      = some { estimatedPayload with availableSeats := .fin 3 } ∧
    acceptAll { estimatedPayload with availableSeats := .fin 3 } = .ok () ∧
    (handleSubmit (withSeats "3") acceptAll).final.successMessage
      = "Ride created successfully!" ∧
    (handleSubmit (withSeats "3") acceptAll).final.isLoading = false ∧
    (handleSubmit (withSeats "3") acceptAll).final.rideData = (withSeats "3").rideData ∧
    (handleSubmit (withSeats "3") acceptAll).final.distance = (withSeats "3").distance ∧
    (handleSubmit (withSeats "3") acceptAll).final.priceEstimate
      = (withSeats "3").priceEstimate ∧
    (handleSubmit (handleSubmit (withSeats "3") acceptAll).final acceptAll).sent
      = some { estimatedPayload with availableSeats := .fin 3 } :=
  ⟨by decide!, rfl,
    handleSubmit_success_keeps_draft (withSeats "3") acceptAll
      { estimatedPayload with availableSeats := .fin 3 } (by decide!) rfl⟩

/-- C9: when `createRide` fails, `handleSubmit` sets the error message to the message
of the server whenever the error carries a (non-empty) one and to
`An unexpected error occurred` otherwise; `isLoading` is false afterwards, and the
draft, the distance and the price estimate are unchanged. -/
theorem handleSubmit_failure_message (st : State)
    (createRide : Payload → Except ApiError Unit) (p : Payload) (e : ApiError)
    (hsent : (handleSubmit st createRide).sent = some p) (herr : createRide p = .error e) :
    (∀ m, e.serverMessage = some m → m ≠ "" →
      (handleSubmit st createRide).final.errorMessage = m) ∧
    (e.serverMessage = none ∨ e.serverMessage = some "" →
      (handleSubmit st createRide).final.errorMessage = "An unexpected error occurred") ∧
    (handleSubmit st createRide).final.isLoading = false ∧
    (handleSubmit st createRide).final.rideData = st.rideData ∧
    (handleSubmit st createRide).final.distance = st.distance ∧
    (handleSubmit st createRide).final.priceEstimate = st.priceEstimate := by
  obtain ⟨st1, h1⟩ := handleSubmit_sent_cases st createRide p hsent
  obtain ⟨_, hst1, _⟩ := handleSubmitBegin_request_inv st st1 p h1
  have hfin : (handleSubmit st createRide).final =
      { st1 with
        isLoading := false
        errorMessage :=
          match e.serverMessage with
          | some m => if m ≠ "" then m else "An unexpected error occurred"
          | none => "An unexpected error occurred" } := by
    rw [handleSubmit_of_request st st1 p createRide h1]
    simp only [handleSubmitResume, herr]
  rw [hfin, hst1]
  refine ⟨?_, ?_, rfl, rfl, rfl, rfl⟩
  · intro m hm hne
    simp [hm, hne]
  · rintro (hm | hm) <;> simp [hm]

/-- C9 at the Estimated form and a backend answering `Ride already exists`. -/
theorem handleSubmit_failure_message_witness :
    (handleSubmit estimatedState (rejectAll (serverError "Ride already exists"))).sent
      = some estimatedPayload ∧
    rejectAll (serverError "Ride already exists") estimatedPayload
      = .error (serverError "Ride already exists") ∧
    (handleSubmit estimatedState (rejectAll (serverError "Ride already exists"))).final.errorMessage
      = "Ride already exists" ∧
    (handleSubmit estimatedState (rejectAll (serverError "Ride already exists"))).final.isLoading
      = false :=
  ⟨by decide!, rfl,
    (handleSubmit_failure_message estimatedState (rejectAll (serverError "Ride already exists"))
      estimatedPayload (serverError "Ride already exists") (by decide!) rfl).1
      "Ride already exists" rfl (by decide),
    (handleSubmit_failure_message estimatedState (rejectAll (serverError "Ride already exists"))
      estimatedPayload (serverError "Ride already exists") (by decide!) rfl).2.2.1⟩

/-! ## Field edits -/

/-- C10: an edit of `rideDate`, `rideTime` or `availableSeats` through `handleChange`
leaves the distance, the price estimate and both stored coordinates unchanged; only
the named draft field takes the new value; and the route effect does not run, so no
route or price is recomputed whatever the routing service would answer. -/
theorem handleChange_keeps_estimate (st : State) (name : FieldName) (value : String)
    (routing : HttpResult) :
    (handleChange st name value).distance = st.distance ∧
    (handleChange st name value).priceEstimate = st.priceEstimate ∧
    (handleChange st name value).rideData.startCoords = st.rideData.startCoords ∧
    (handleChange st name value).rideData.endCoords = st.rideData.endCoords ∧
    (handleChange st name value).rideData.get name = .str value ∧
    (∀ other, other ≠ name →
      (handleChange st name value).rideData.get other = st.rideData.get other) ∧
    (handleChange st name value).rideData.startLocation = st.rideData.startLocation ∧
    (handleChange st name value).rideData.endLocation = st.rideData.endLocation ∧
    routeEffectDue st (handleChange st name value) = false ∧
    afterRender st (handleChange st name value) routing = handleChange st name value := by
  have hdue : routeEffectDue st (handleChange st name value) = false := by
    cases name <;> simp [routeEffectDue, handleChange, sameObject]
  refine ⟨?_, ?_, ?_, ?_, ?_, ?_, ?_, ?_, hdue, ?_⟩
  · cases name <;> rfl
  · cases name <;> rfl
  · cases name <;> rfl
  · cases name <;> rfl
  · cases name <;> rfl
  · intro other hne
    cases name <;> cases other <;> first | rfl | exact absurd rfl hne
  · cases name <;> rfl
  · cases name <;> rfl
  · simp [afterRender, hdue]

/-! ## The timestamp of the payload -/


theorem digitChar_toNat (d : ℕ) (h : d < 10) : (digitChar d).toNat = 48 + d := by
  interval_cases d <;> rfl

theorem isDecDigit_digitChar (d : ℕ) (h : d < 10) : isDecDigit (digitChar d) = true := by
  simp [isDecDigit, digitChar_toNat d h]
  omega

theorem isDecDigit_ne (c e : Char) (hc : isDecDigit c = true)
    (he : e.toNat < 48 ∨ 57 < e.toNat) : c ≠ e := by
  rintro rfl
  simp [isDecDigit] at hc
  omega

theorem digitsVal_pad2 (n : ℕ) (h : n < 100) : digitsVal (pad2 n) = n := by
  have h1 : n / 10 % 10 < 10 := Nat.mod_lt _ (by norm_num)
  have h2 : n % 10 < 10 := Nat.mod_lt _ (by norm_num)
  simp [digitsVal, pad2, digitChar_toNat _ h1, digitChar_toNat _ h2]
  omega

theorem digitsVal_pad4 (n : ℕ) (h : n < 10000) : digitsVal (pad4 n) = n := by
  have h1 : n / 1000 % 10 < 10 := Nat.mod_lt _ (by norm_num)
  have h2 : n / 100 % 10 < 10 := Nat.mod_lt _ (by norm_num)
  have h3 : n / 10 % 10 < 10 := Nat.mod_lt _ (by norm_num)
  have h4 : n % 10 < 10 := Nat.mod_lt _ (by norm_num)
  simp [digitsVal, pad4, digitChar_toNat _ h1, digitChar_toNat _ h2, digitChar_toNat _ h3,
    digitChar_toNat _ h4]
  omega

theorem all_pad2 (n : ℕ) : (pad2 n).all isDecDigit = true := by
  simp [pad2, isDecDigit_digitChar _ (Nat.mod_lt _ (by norm_num : 10 > 0))]

theorem all_pad4 (n : ℕ) : (pad4 n).all isDecDigit = true := by
  simp [pad4, isDecDigit_digitChar _ (Nat.mod_lt _ (by norm_num : 10 > 0))]

theorem takeField_pad2 (n : ℕ) (h : n < 100) (rest : List Char) :
    takeField 2 (pad2 n ++ rest) = some (n, rest) := by
  have hl : (pad2 n).length = 2 := rfl
  have ht : (pad2 n ++ rest).take 2 = pad2 n := by
    rw [List.take_append_of_le_length (by simp [hl])]; exact List.take_of_length_le (by simp [hl])
  have hd : (pad2 n ++ rest).drop 2 = rest := by
    rw [← hl]; exact List.drop_left _ _
  simp only [takeField, ht, hd, all_pad2, digitsVal_pad2 n h]
  simp [hl]

theorem takeField_pad4 (n : ℕ) (h : n < 10000) (rest : List Char) :
    takeField 4 (pad4 n ++ rest) = some (n, rest) := by
  have hl : (pad4 n).length = 4 := rfl
  have ht : (pad4 n ++ rest).take 4 = pad4 n := by
    rw [List.take_append_of_le_length (by simp [hl])]; exact List.take_of_length_le (by simp [hl])
  have hd : (pad4 n ++ rest).drop 4 = rest := by
    rw [← hl]; exact List.drop_left _ _
  simp only [takeField, ht, hd, all_pad4, digitsVal_pad4 n h]
  simp [hl]


theorem pad4_head (n : ℕ) (rest : List Char) :
    ∃ c tl, pad4 n ++ rest = c :: tl ∧ isDecDigit c = true :=
  ⟨_, _, rfl, isDecDigit_digitChar _ (Nat.mod_lt _ (by norm_num))⟩

theorem scanYear_pad4 (y : ℕ) (h : y < 10000) (rest : List Char) :
    scanYear (pad4 y ++ rest) = some ((y : ℤ), rest) := by
  obtain ⟨c, tl, hc, hdig⟩ := pad4_head y rest
  have h1 : c ≠ '+' := isDecDigit_ne c '+' hdig (by decide)
  have h2 : c ≠ '-' := isDecDigit_ne c '-' hdig (by decide)
  have := takeField_pad4 y h rest
  rw [hc] at this ⊢
  simp [scanYear, h1, h2, this]

theorem scanDashField_pad2 (dflt n : ℕ) (h : n < 100) (rest : List Char) :
    scanDashField dflt ('-' :: (pad2 n ++ rest)) = some (n, rest) := by
  simp [scanDashField, takeField_pad2 n h]

theorem scanTime_hhmm00 (hh mi : ℕ) (h1 : hh ≤ 23) (h2 : mi ≤ 59) (rest : List Char)
    (hrest : rest.head? ≠ some '.' ) :
    scanTime (pad2 hh ++ ':' :: (pad2 mi ++ ':' :: (pad2 0 ++ rest)))
      = some (hh * 3600000 + mi * 60000, rest) := by
  have a := takeField_pad2 hh (by omega) (':' :: (pad2 mi ++ ':' :: (pad2 0 ++ rest)))
  have b := takeField_pad2 mi (by omega) (':' :: (pad2 0 ++ rest))
  have c := takeField_pad2 0 (by omega) rest
  simp only [scanTime, a, b, c]
  simp [hrest, h1, h2]

theorem yearLength (y : ℤ) :
    dayFromYear (y + 1) - dayFromYear y = if inLeapYear y then 366 else 365 := by
  unfold dayFromYear inLeapYear
  split <;> rename_i h <;> simp at h <;> omega

theorem yearFromDay_dayFromYear (y doy : ℤ) (h0 : 0 ≤ doy)
    (h1 : doy < dayFromYear (y + 1) - dayFromYear y) :
    yearFromDay (dayFromYear y + doy) = y := by
  have hl := yearLength y
  have hl1 := yearLength (y - 1)
  have hl2 := yearLength (y + 1)
  have hlen : 365 ≤ dayFromYear (y + 1) - dayFromYear y ∧ dayFromYear (y + 1) - dayFromYear y ≤ 366 := by
    rw [hl]; split <;> omega
  have hlen1 : 365 ≤ dayFromYear y - dayFromYear (y - 1) := by
    have := hl1; rw [show y - 1 + 1 = y by ring] at this; rw [this]; split <;> omega
  have hlen2 : 365 ≤ dayFromYear (y + 2) - dayFromYear (y + 1) := by
    have := hl2; rw [show y + 1 + 1 = y + 2 by ring] at this; rw [this]; split <;> omega
  -- the estimate is within one year of y
  have hest : y - 1 ≤ 1970 + 400 * (dayFromYear y + doy) / 146097 ∧
      1970 + 400 * (dayFromYear y + doy) / 146097 ≤ y + 1 := by
    unfold dayFromYear at hlen ⊢
    omega
  unfold yearFromDay
  simp only
  generalize hy0 : 1970 + 400 * (dayFromYear y + doy) / 146097 = y0 at hest ⊢
  have hcases : y0 = y - 1 ∨ y0 = y ∨ y0 = y + 1 := by omega
  rcases hcases with rfl | rfl | rfl
  · have : ¬ (dayFromYear y + doy < dayFromYear (y - 1)) := by omega
    rw [if_neg this, show y - 1 + 1 = y by ring, if_pos (by omega)]
  · rw [if_neg (by omega), if_neg (by omega)]
  · rw [if_pos (by omega)]; ring


theorem monthDay_table (leap : Bool) : ∀ m, m < 12 → ∀ d, d < 32 → monthDayOk leap m d = true := by
  cases leap <;> decide!

theorem monthDay_spec (leap : Bool) (m d : ℕ) (hm : m < 12) (hd1 : 1 ≤ d)
    (hd2 : (d : ℤ) ≤ daysInMonth leap m) :
    monthFromDoy leap (daysBeforeMonth leap m + ((d : ℤ) - 1)) = m ∧
    0 ≤ daysBeforeMonth leap m ∧
    daysBeforeMonth leap m + ((d : ℤ) - 1) < (if leap then 366 else 365) ∧ d ≤ 31 := by
  have h31 : d < 32 := by
    by_contra hcon
    have h0 := monthDay_table leap m hm 1 (by norm_num)
    simp only [monthDayOk] at h0
    by_cases h1 : ((1:ℕ) : ℤ) ≤ daysInMonth leap m
    · simp [h1] at h0
      omega
    · omega
  have h := monthDay_table leap m hm d h31
  simp only [monthDayOk] at h
  simp [hd1, hd2] at h
  exact ⟨h.1.1.1, h.1.1.2, h.1.2, by omega⟩


theorem toISOString_makeDate (y m d hh mi : ℕ) (hv : validDate y m d) (ht : validTime hh mi) :
    toISOString (makeDate y m d hh mi 0 0) =
      String.mk (pad4 y ++ '-' :: (pad2 m ++ '-' :: (pad2 d ++ 'T' :: (pad2 hh ++ ':' ::
        (pad2 mi ++ ':' :: (pad2 0 ++ '.' :: (pad3 0 ++ ['Z']))))))) := by
  obtain ⟨hy, hm1, hm12, hd1, hd2⟩ := hv
  obtain ⟨hh23, hmi59⟩ := ht
  obtain ⟨hmon, hdbm0, hdoy, hd31⟩ := monthDay_spec (inLeapYear y) (m - 1) d (by omega) hd1 hd2
  have hylen := yearLength (y : ℤ)
  set doy : ℤ := daysBeforeMonth (inLeapYear y) (m - 1) + ((d : ℤ) - 1) with hdoy_def
  have hyear : yearFromDay (dayFromYear y + doy) = y :=
    yearFromDay_dayFromYear y doy (by omega) (by rw [hylen]; exact hdoy)
  have hsplit : makeDate y m d hh mi 0 0
      = (dayFromYear y + doy) * 86400000 + ((hh * 3600000 + mi * 60000 : ℕ) : ℤ) := by
    simp only [makeDate, msPerDay, hdoy_def]
    push_cast
    ring
  have htod : (hh * 3600000 + mi * 60000 : ℕ) < 86400000 := by omega
  have hday : makeDate y m d hh mi 0 0 / msPerDay = dayFromYear y + doy := by
    rw [hsplit, msPerDay]; omega
  have hrem : (makeDate y m d hh mi 0 0 % msPerDay).toNat = hh * 3600000 + mi * 60000 := by
    rw [hsplit, msPerDay]; omega
  unfold toISOString
  simp only [hday, hrem, hyear, add_sub_cancel_left, hmon]
  have e1 : m - 1 + 1 = m := by omega
  have e2 : (doy - daysBeforeMonth (inLeapYear y) (m - 1) + 1).toNat = d := by
    rw [hdoy_def]; omega
  have e3 : (hh * 3600000 + mi * 60000) / 3600000 = hh := by omega
  have e4 : (hh * 3600000 + mi * 60000) / 60000 % 60 = mi := by omega
  have e5 : (hh * 3600000 + mi * 60000) / 1000 % 60 = 0 := by omega
  have e6 : (hh * 3600000 + mi * 60000) % 1000 = 0 := by omega
  have e7 : isoYear (y : ℤ) = pad4 y := by
    simp [isoYear, hy]
  rw [e1, e2, e3, e4, e5, e6, e7]
  simp


theorem makeDate_bounds (y m d hh mi : ℕ) (hv : validDate y m d) (ht : validTime hh mi) :
    |makeDate y m d hh mi 0 0| ≤ 8640000000000000 := by
  obtain ⟨hy, hm1, hm12, hd1, hd2⟩ := hv
  obtain ⟨hh23, hmi59⟩ := ht
  obtain ⟨-, hdbm0, hdoy, hd31⟩ := monthDay_spec (inLeapYear y) (m - 1) d (by omega) hd1 hd2
  have hdoy2 : daysBeforeMonth (inLeapYear y) (m - 1) + ((d : ℤ) - 1) < 366 := by
    split at hdoy <;> omega
  rw [abs_le]
  simp only [makeDate, dayFromYear, msPerDay]
  constructor <;> omega

theorem isoDateTime_data (y m d hh mi : ℕ) :
    (isoDate y m d ++ "T" ++ isoTime hh mi ++ ":00Z").data =
      pad4 y ++ '-' :: (pad2 m ++ '-' :: (pad2 d ++ 'T' :: (pad2 hh ++ ':' ::
        (pad2 mi ++ ':' :: (pad2 0 ++ ['Z']))))) := by
  simp [isoDate, isoTime, pad2, digitChar]

theorem dateParse_isoDateTime (y m d hh mi : ℕ) (hv : validDate y m d) (ht : validTime hh mi) :
    dateParse (isoDate y m d ++ "T" ++ isoTime hh mi ++ ":00Z")
      = some (makeDate y m d hh mi 0 0) := by
  have hb := makeDate_bounds y m d hh mi hv ht
  obtain ⟨hy, hm1, hm12, hd1, hd2⟩ := hv
  obtain ⟨hh23, hmi59⟩ := ht
  obtain ⟨-, -, -, hd31⟩ := monthDay_spec (inLeapYear y) (m - 1) d (by omega) hd1 hd2
  unfold dateParse
  rw [isoDateTime_data, scanYear_pad4 y (by omega)]
  simp only
  rw [scanDashField_pad2 1 m (by omega)]
  simp only
  have hne : ('-' :: (pad2 m ++ '-' :: (pad2 d ++ 'T' :: (pad2 hh ++ ':' ::
        (pad2 mi ++ ':' :: (pad2 0 ++ ['Z'])))))) ≠ ('-' :: (pad2 d ++ 'T' :: (pad2 hh ++ ':' ::
        (pad2 mi ++ ':' :: (pad2 0 ++ ['Z']))))) := by
    intro h
    have := congrArg List.length h
    simp [pad2] at this
  rw [if_neg hne, scanDashField_pad2 1 d (by omega)]
  simp only
  rw [if_pos ⟨hm1, hm12, hd1, hd2⟩]
  simp only [if_true]
  rw [scanTime_hhmm00 hh mi hh23 hmi59 ['Z'] (by decide)]
  simp only [scanZone, if_true]
  have hsum : makeDate y m d 0 0 0 0 + ((hh * 3600000 + mi * 60000 : ℕ) : ℤ) - 0
      = makeDate y m d hh mi 0 0 := by
    simp only [makeDate]; push_cast; ring
  rw [hsum, timeClip, if_pos hb]


theorem isoTimestamp_eq (y m d hh mi : ℕ) :
    String.mk (pad4 y ++ '-' :: (pad2 m ++ '-' :: (pad2 d ++ 'T' :: (pad2 hh ++ ':' ::
        (pad2 mi ++ ':' :: (pad2 0 ++ '.' :: (pad3 0 ++ ['Z'])))))))
      = isoDate y m d ++ "T" ++ isoTime hh mi ++ ":00.000Z" := by
  apply String.ext
  simp [isoDate, isoTime, pad2, pad3, digitChar]

/-- C5: for every valid calendar date `D` (as `YYYY-MM-DD`) and every valid time of
day `T` (as `HH:MM`) in the draft, the payload `handleSubmit` builds has `rideTime`
equal to `D ++ "T" ++ T ++ ":00.000Z"` and `rideDate` equal to `D`. -/
theorem handleSubmit_rideTime_is_utc_timestamp (st : State)
    (createRide : Payload → Except ApiError Unit) (y m d hh mi : ℕ)
    (hv : validDate y m d) (ht : validTime hh mi)
    (hD : st.rideData.rideDate = isoDate y m d) (hT : st.rideData.rideTime = isoTime hh mi)
    (hprice : (parseFloat (cellVal st.priceEstimate)).isNaN = false) :
    ∃ p, (handleSubmit st createRide).sent = some p ∧
      p.rideTime = isoDate y m d ++ "T" ++ isoTime hh mi ++ ":00.000Z" ∧
      p.rideDate = isoDate y m d := by
  have hparse : dateParse (st.rideData.rideDate ++ "T" ++ st.rideData.rideTime ++ ":00Z")
      = some (makeDate y m d hh mi 0 0) := by
    rw [hD, hT]; exact dateParse_isoDateTime y m d hh mi hv ht
  have hbegin := handleSubmitBegin_of_valid st _ hprice hparse
  refine ⟨_, congrArg SubmitOutcome.sent (handleSubmit_of_request st _ _ createRide hbegin), ?_, hD⟩
  show toISOString (makeDate y m d hh mi 0 0) = _
  rw [toISOString_makeDate y m d hh mi hv ht, isoTimestamp_eq]

/-- C5 at D = `2024-05-01` and T = `14:30`. -/
theorem handleSubmit_rideTime_is_utc_timestamp_witness :
    validDate 2024 5 1 ∧ validTime 14 30 ∧
    estimatedState.rideData.rideDate = isoDate 2024 5 1 ∧
    estimatedState.rideData.rideTime = isoTime 14 30 ∧
    isoDate 2024 5 1 = "2024-05-01" ∧ isoTime 14 30 = "14:30" ∧
    (parseFloat (cellVal estimatedState.priceEstimate)).isNaN = false ∧
    (handleSubmit estimatedState acceptAll).sent.map Payload.rideTime
      = some "2024-05-01T14:30:00.000Z" ∧
    ∃ p, (handleSubmit estimatedState acceptAll).sent = some p ∧
      p.rideTime = isoDate 2024 5 1 ++ "T" ++ isoTime 14 30 ++ ":00.000Z" ∧
      p.rideDate = isoDate 2024 5 1 :=
  ⟨by unfold validDate; decide!, by unfold validTime; decide!, by decide!, by decide!,
    by decide!, by decide!, by decide!, by decide!,
    handleSubmit_rideTime_is_utc_timestamp estimatedState acceptAll 2024 5 1 14 30
      (by unfold validDate; decide!) (by unfold validTime; decide!) (by decide!) (by decide!)
      (by decide!)⟩

/-! ## Rounding to binary64: the error of one operation -/

theorem pow2_eq_zpow (e : ℤ) : pow2 e = (2 : ℚ) ^ e := by
  unfold pow2
  split
  · rename_i h
    obtain ⟨n, rfl⟩ := Int.eq_ofNat_of_zero_le h
    simp
  · rename_i h
    push_neg at h
    obtain ⟨n, hn⟩ := Int.exists_eq_neg_ofNat (le_of_lt h)
    subst hn
    simp

theorem pow2_pos (e : ℤ) : 0 < pow2 e := by
  rw [pow2_eq_zpow]; positivity

theorem pow2_add (a b : ℤ) : pow2 (a + b) = pow2 a * pow2 b := by
  simp only [pow2_eq_zpow]
  exact zpow_add₀ (by norm_num) a b

theorem natLog2Aux_spec : ∀ fuel n, n ≤ fuel → 1 ≤ n →
    2 ^ natLog2Aux fuel n ≤ n ∧ n < 2 ^ (natLog2Aux fuel n + 1) := by
  intro fuel
  induction fuel with
  | zero => intro n h1 h2; omega
  | succ f ih =>
    intro n h1 h2
    unfold natLog2Aux
    split
    · rename_i h; simp; omega
    · rename_i h
      have := ih (n / 2) (by omega) (by omega)
      rw [pow_succ, pow_succ]
      omega

theorem natLog2_spec (n : ℕ) (h : 1 ≤ n) : 2 ^ natLog2 n ≤ n ∧ n < 2 ^ (natLog2 n + 1) :=
  natLog2Aux_spec n n le_rfl h


theorem binExp_spec (a : ℚ) (ha : 0 < a) : pow2 (binExp a) ≤ a ∧ a < pow2 (binExp a + 1) := by
  have hnum : 0 < a.num := Rat.num_pos.mpr ha
  have hn1 : 1 ≤ a.num.natAbs := by omega
  have hd1 : 1 ≤ a.den := a.den_pos
  obtain ⟨hn_lo, hn_hi⟩ := natLog2_spec _ hn1
  obtain ⟨hd_lo, hd_hi⟩ := natLog2_spec _ hd1
  have hnq : ((a.num.natAbs : ℕ) : ℚ) = (a.num : ℚ) := by
    have h : ((a.num.natAbs : ℕ) : ℤ) = a.num := Int.natAbs_of_nonneg hnum.le
    calc ((a.num.natAbs : ℕ) : ℚ) = (((a.num.natAbs : ℕ) : ℤ) : ℚ) :=
          (Int.cast_natCast _).symm
      _ = (a.num : ℚ) := by rw [h]
  have haeq : a = (a.num.natAbs : ℚ) / (a.den : ℚ) := by
    rw [hnq]; exact (Rat.num_div_den a).symm
  have hdpos : (0 : ℚ) < (a.den : ℚ) := by exact_mod_cast hd1
  set Ln := natLog2 a.num.natAbs
  set Ld := natLog2 a.den
  have h1 : ((2 : ℚ) ^ Ln) ≤ (a.num.natAbs : ℚ) := by exact_mod_cast hn_lo
  have h2 : (a.num.natAbs : ℚ) < (2 : ℚ) ^ (Ln + 1) := by exact_mod_cast hn_hi
  have h3 : ((2 : ℚ) ^ Ld) ≤ (a.den : ℚ) := by exact_mod_cast hd_lo
  have h4 : (a.den : ℚ) < (2 : ℚ) ^ (Ld + 1) := by exact_mod_cast hd_hi
  have he0 : pow2 ((Ln : ℤ) - (Ld : ℤ)) = (2 : ℚ) ^ Ln / (2 : ℚ) ^ Ld := by
    rw [pow2_eq_zpow, zpow_sub₀ (by norm_num)]; simp
  have hup : a < pow2 ((Ln : ℤ) - (Ld : ℤ) + 1) := by
    rw [pow2_add, he0, haeq]
    have : pow2 1 = 2 := by decide!
    rw [this, div_lt_iff₀ hdpos]
    calc (a.num.natAbs : ℚ) < 2 ^ (Ln + 1) := h2
      _ = 2 ^ Ln / 2 ^ Ld * 2 * 2 ^ Ld := by field_simp; ring
      _ ≤ 2 ^ Ln / 2 ^ Ld * 2 * (a.den : ℚ) := by
        apply mul_le_mul_of_nonneg_left h3; positivity
  have hlow : pow2 ((Ln : ℤ) - (Ld : ℤ) - 1) ≤ a := by
    rw [sub_eq_add_neg, pow2_add, he0, haeq]
    have : pow2 (-1) = 1 / 2 := by decide!
    rw [this, le_div_iff₀ hdpos]
    calc 2 ^ Ln / 2 ^ Ld * (1 / 2) * (a.den : ℚ)
        ≤ 2 ^ Ln / 2 ^ Ld * (1 / 2) * 2 ^ (Ld + 1) := by
          apply mul_le_mul_of_nonneg_left h4.le; positivity
      _ = 2 ^ Ln := by field_simp; ring
      _ ≤ (a.num.natAbs : ℚ) := h1
  unfold binExp
  simp only
  split
  · rename_i h
    exact ⟨h, hup⟩
  · rename_i h
    push_neg at h
    refine ⟨hlow, ?_⟩
    rw [sub_add_cancel]
    exact h

theorem roundHalfEven_err (x : ℚ) : |(roundHalfEven x : ℚ) - x| ≤ 1 / 2 := by
  have h1 := Int.floor_le x
  have h2 := Int.lt_floor_add_one x
  unfold roundHalfEven
  simp only
  rw [abs_le]
  split_ifs with ha hb hc
  · constructor <;> linarith
  · push_cast; constructor <;> linarith
  · push_neg at ha hb
    constructor <;> linarith
  · push_neg at ha hb
    push_cast
    constructor <;> linarith

theorem roundPos_err (a : ℚ) (ha : pow2 (-1022) ≤ a) :
    |roundPos a - a| ≤ a * pow2 (-53) := by
  have hpos : 0 < a := lt_of_lt_of_le (pow2_pos _) ha
  obtain ⟨hlo, hhi⟩ := binExp_spec a hpos
  have he : -1022 ≤ binExp a := by
    by_contra hcon
    push_neg at hcon
    have : binExp a + 1 ≤ -1022 := by omega
    have hmono : pow2 (binExp a + 1) ≤ pow2 (-1022) := by
      simp only [pow2_eq_zpow]
      exact zpow_le_zpow_right₀ (by norm_num) this
    linarith
  unfold roundPos
  simp only [max_eq_left he]
  set ulp := pow2 (binExp a - 52) with hulp
  have hulp_pos : 0 < ulp := pow2_pos _
  have herr := roundHalfEven_err (a / ulp)
  have hfac : (roundHalfEven (a / ulp) : ℚ) * ulp - a
      = ((roundHalfEven (a / ulp) : ℚ) - a / ulp) * ulp := by
    field_simp
  rw [hfac, abs_mul, abs_of_pos hulp_pos]
  have hulp2 : ulp * (1 / 2) = pow2 (binExp a) * pow2 (-53) := by
    have h53 : pow2 (-53) = pow2 (-52) * (1 / 2) := by decide!
    rw [hulp, h53, ← mul_assoc, ← pow2_add]
    rfl
  calc |(roundHalfEven (a / ulp) : ℚ) - a / ulp| * ulp ≤ 1 / 2 * ulp := by
        apply mul_le_mul_of_nonneg_right herr hulp_pos.le
    _ = pow2 (binExp a) * pow2 (-53) := by rw [← hulp2]; ring
    _ ≤ a * pow2 (-53) := by
        apply mul_le_mul_of_nonneg_right hlo (pow2_pos _).le


theorem roundDouble_of_moderate (a : ℚ) (h1 : 1 / 1000 ≤ a) (h2 : a ≤ 10 ^ 15) :
    ∃ r, roundDouble a = .fin r ∧ a * (1 - 1 / 9007199254740992) ≤ r ∧ r ≤ a * (1 + 1 / 9007199254740992) := by
  have hpos : 0 < a := by linarith
  have hmin : pow2 (-1022) ≤ 1 / 1000 := by decide!
  have herr := roundPos_err a (le_trans hmin h1)
  have hu : pow2 (-53) = 1 / 9007199254740992 := by decide!
  rw [abs_le, hu] at herr
  have hbig : (10 : ℚ) ^ 15 * 2 < pow2 1024 := by decide!
  have hlt : roundPos a < pow2 1024 := by linarith [herr.2]
  refine ⟨roundPos a, ?_, by linarith [herr.1], by linarith [herr.2]⟩
  unfold roundDouble
  rw [if_neg hpos.ne', if_pos hpos, if_neg (not_le.mpr hlt)]

theorem baseFarePerKm_eq : baseFarePerKm = .fin 13 := by decide!

theorem moderate_eq :
    trafficMultipliers .moderate = .fin (5404319552844595 / 4503599627370496) := by decide!

theorem highway_eq : roadTypeMultipliers .highway = .fin 1 := by decide!

theorem price_chain (k : ℕ) (hk1 : 1 ≤ k) (hk : k ≤ 10 ^ 13) :
    ∃ r, (((roundDouble ((k : ℚ) / 100)).mul baseFarePerKm).mul
        (trafficMultipliers .moderate)).mul (roadTypeMultipliers .highway) = .fin r ∧
      |r * 100 - (156 * (k : ℚ)) / 10| < 1 / 10 ∧ 0 ≤ r ∧ r < 10 ^ 21 := by
  have hkq1 : (1 : ℚ) ≤ (k : ℚ) := by exact_mod_cast hk1
  have hkq : (k : ℚ) ≤ 10 ^ 13 := by exact_mod_cast hk
  obtain ⟨r1, e1, l1, g1⟩ := roundDouble_of_moderate ((k : ℚ) / 100) (by linarith) (by linarith)
  obtain ⟨r2, e2, l2, g2⟩ := roundDouble_of_moderate (r1 * 13) (by linarith) (by linarith)
  obtain ⟨r3, e3, l3, g3⟩ := roundDouble_of_moderate
    (r2 * (5404319552844595 / 4503599627370496)) (by linarith) (by linarith)
  obtain ⟨r4, e4, l4, g4⟩ := roundDouble_of_moderate (r3 * 1) (by linarith) (by linarith)
  refine ⟨r4, ?_, ?_, by linarith, by linarith⟩
  · rw [baseFarePerKm_eq, moderate_eq, highway_eq, e1]
    show JSNum.mul (JSNum.mul (roundDouble (r1 * 13)) _) _ = _
    rw [e2]
    show JSNum.mul (roundDouble (r2 * (5404319552844595 / 4503599627370496))) _ = _
    rw [e3]
    show roundDouble (r3 * 1) = _
    exact e4
  · rw [abs_lt]
    constructor <;> linarith

/-! ## Decimal text read back as a number -/

theorem digitsVal_append (xs ys : List Char) :
    digitsVal (xs ++ ys) = digitsVal xs * 10 ^ ys.length + digitsVal ys := by
  unfold digitsVal
  rw [List.foldl_append]
  generalize List.foldl (fun acc c => acc * 10 + (c.toNat - 48)) 0 xs = a
  induction ys generalizing a with
  | nil => simp
  | cons y ys ih =>
    simp only [List.foldl_cons, List.length_cons]
    rw [ih (a * 10 + (y.toNat - 48)), ih (0 * 10 + (y.toNat - 48))]
    ring

theorem natDigitsAux_append (fuel n : ℕ) (acc : List Char) :
    natDigitsAux fuel n acc = natDigitsAux fuel n [] ++ acc := by
  induction fuel generalizing n acc with
  | zero => simp [natDigitsAux]
  | succ f ih =>
    unfold natDigitsAux
    split
    · simp
    · rw [ih (n / 10) (digitChar (n % 10) :: acc), ih (n / 10) [digitChar (n % 10)]]
      simp

theorem natDigitsAux_spec (fuel n : ℕ) (h : n < fuel) :
    digitsVal (natDigitsAux fuel n []) = n ∧
    (natDigitsAux fuel n []).all isDecDigit = true ∧
    natDigitsAux fuel n [] ≠ [] := by
  induction fuel generalizing n with
  | zero => omega
  | succ f ih =>
    unfold natDigitsAux
    split
    · rename_i hlt
      refine ⟨?_, ?_, by simp⟩
      · simp [digitsVal, digitChar_toNat n hlt]
      · simp [isDecDigit_digitChar n hlt]
    · rename_i hge
      obtain ⟨h1, h2, h3⟩ := ih (n / 10) (by omega)
      have hm : n % 10 < 10 := Nat.mod_lt _ (by norm_num)
      rw [natDigitsAux_append]
      refine ⟨?_, ?_, by simp [h3]⟩
      · rw [digitsVal_append, h1]
        simp [digitsVal, digitChar_toNat _ hm]
        omega
      · simp [List.all_append, h2, isDecDigit_digitChar _ hm]

theorem natDigits_spec (n : ℕ) :
    digitsVal (natDigits n) = n ∧ (natDigits n).all isDecDigit = true ∧ natDigits n ≠ [] :=
  natDigitsAux_spec (n + 1) n (by omega)


theorem takeWhile_digits_append (ds rest : List Char) (hds : ds.all isDecDigit = true)
    (hrest : ∀ c, rest.head? = some c → isDecDigit c = false) :
    (ds ++ rest).takeWhile isDecDigit = ds ∧ (ds ++ rest).dropWhile isDecDigit = rest := by
  induction ds with
  | nil =>
    cases rest with
    | nil => simp
    | cons c cs =>
      have := hrest c rfl
      simp [List.takeWhile, List.dropWhile, this]
  | cons d ds ih =>
    simp only [List.all_cons, Bool.and_eq_true] at hds
    obtain ⟨h1, h2⟩ := ih hds.2
    simp [List.takeWhile, List.dropWhile, hds.1, h1, h2]

theorem isDecDigit_not_white (c : Char) (h : isDecDigit c = true) : isJSWhiteSpace c = false := by
  simp only [isDecDigit, Bool.and_eq_true, decide_eq_true_eq] at h
  simp only [isJSWhiteSpace]
  have h1 := h.1
  have h2 := h.2
  simp only [Bool.or_eq_false_iff, Bool.and_eq_false_iff, decide_eq_false_iff_not]
  refine ⟨⟨⟨⟨⟨⟨⟨⟨⟨⟨⟨⟨⟨⟨?_, ?_⟩, ?_⟩, ?_⟩, ?_⟩, ?_⟩, ?_⟩, ?_⟩, ?_⟩, ?_⟩, ?_⟩, ?_⟩, ?_⟩, ?_⟩, ?_⟩ <;>
    omega


theorem twoDecimals_mem (k : ℕ) (c : Char) (h : c ∈ (twoDecimals k).data) :
    isDecDigit c = true ∨ c = '.' := by
  simp only [twoDecimals, List.mem_append, List.mem_cons] at h
  rcases h with h | h | h
  · exact Or.inl (List.all_eq_true.mp (natDigits_spec _).2.1 c h)
  · exact Or.inr h
  · exact Or.inl (List.all_eq_true.mp (all_pad2 _) c h)

theorem twoDecimals_shape (k : ℕ) :
    ∃ c p tl, (twoDecimals k).data = c :: p :: tl ∧ isDecDigit c = true := by
  obtain ⟨-, hall, hne⟩ := natDigits_spec (k / 100)
  simp only [twoDecimals]
  cases hd : natDigits (k / 100) with
  | nil => exact absurd hd hne
  | cons c tl =>
    rw [hd] at hall
    simp only [List.all_cons, Bool.and_eq_true] at hall
    cases tl with
    | nil => exact ⟨c, '.', _, rfl, hall.1⟩
    | cons p tl2 => exact ⟨c, p, _, rfl, hall.1⟩

theorem trimBoth_twoDecimals (k : ℕ) : trimBoth (twoDecimals k).data = (twoDecimals k).data := by
  obtain ⟨c, p, tl, hshape, hc⟩ := twoDecimals_shape k
  have hstart : trimStart (twoDecimals k).data = (twoDecimals k).data := by
    rw [hshape, trimStart, List.dropWhile_cons_of_neg]
    simp [isDecDigit_not_white c hc]
  unfold trimBoth
  rw [hstart]
  have hrev : (twoDecimals k).data.reverse
      = digitChar (k % 100 % 10) :: digitChar (k % 100 / 10 % 10) :: '.' ::
          (natDigits (k / 100)).reverse := by
    simp [twoDecimals, pad2]
  have hlast : isJSWhiteSpace (digitChar (k % 100 % 10)) = false :=
    isDecDigit_not_white _ (isDecDigit_digitChar _ (Nat.mod_lt _ (by norm_num)))
  rw [hrev, List.dropWhile_cons_of_neg (by simp [hlast]), ← hrev, List.reverse_reverse]

theorem scanNonDecimal_twoDecimals (k : ℕ) : scanNonDecimal (twoDecimals k).data = none := by
  unfold scanNonDecimal
  split
  · rename_i p ds heq
    have hp : p ∈ (twoDecimals k).data := by rw [heq]; simp
    have hp2 := twoDecimals_mem k p hp
    have hx : ∀ e : Char, (e.toNat < 46 ∨ 57 < e.toNat) → p ≠ e := by
      intro e he
      rcases hp2 with h | h
      · exact isDecDigit_ne p e h (by omega)
      · rw [h]; rintro rfl; simp at he
    simp [hx 'x' (by decide), hx 'X' (by decide), hx 'o' (by decide), hx 'O' (by decide),
      hx 'b' (by decide), hx 'B' (by decide)]
  · rfl

theorem scanUnsigned_twoDecimals (k : ℕ) :
    scanUnsigned (twoDecimals k).data = some (roundDouble ((k : ℚ) / 100), []) := by
  obtain ⟨c, p, tl, hshape, hc⟩ := twoDecimals_shape k
  obtain ⟨hval, hall, hne⟩ := natDigits_spec (k / 100)
  have hb : k % 100 < 100 := Nat.mod_lt _ (by norm_num)
  have hinf : ¬ ("Infinity".data <+: (twoDecimals k).data) := by
    rw [hshape]
    intro h
    have := (List.cons_prefix_cons.mp h).1
    exact isDecDigit_ne c 'I' hc (by decide) this.symm
  obtain ⟨t1, d1⟩ := takeWhile_digits_append (natDigits (k / 100)) ('.' :: pad2 (k % 100)) hall
    (by intro c hc; simp at hc; rw [← hc]; decide)
  obtain ⟨t2, d2⟩ := takeWhile_digits_append (pad2 (k % 100)) [] (all_pad2 _) (by simp)
  rw [List.append_nil] at t2 d2
  have hdata : (twoDecimals k).data = natDigits (k / 100) ++ '.' :: pad2 (k % 100) := rfl
  unfold scanUnsigned
  rw [if_neg hinf]
  simp only [hdata, t1, d1, List.head?_cons, decide_True, if_true, List.tail_cons, t2, d2]
  rw [if_neg (by simp [hne])]
  simp only [scanExponent]
  have hlen : (pad2 (k % 100)).length = 2 := rfl
  have hk : (k : ℚ) = ((k / 100 : ℕ) : ℚ) * 100 + ((k % 100 : ℕ) : ℚ) := by
    exact_mod_cast (Nat.div_add_mod' k 100).symm
  have hq : ((k / 100 : ℕ) : ℚ) + ((k % 100 : ℕ) : ℚ) / ((10 ^ 2 : ℕ) : ℚ) = (k : ℚ) / 100 := by
    rw [hk]; push_cast; ring
  rw [hval, digitsVal_pad2 _ hb, hlen, hq]

theorem stringToNumber_twoDecimals (k : ℕ) :
    stringToNumber (twoDecimals k) = roundDouble ((k : ℚ) / 100) := by
  obtain ⟨c, p, tl, hshape, hc⟩ := twoDecimals_shape k
  unfold stringToNumber
  simp only [trimBoth_twoDecimals, scanNonDecimal_twoDecimals]
  rw [if_neg (by rw [hshape]; simp)]
  have h1 : (twoDecimals k).data.head? ≠ some '+' := by
    rw [hshape]; simp; exact isDecDigit_ne c '+' hc (by decide)
  have h2 : (twoDecimals k).data.head? ≠ some '-' := by
    rw [hshape]; simp; exact isDecDigit_ne c '-' hc (by decide)
  simp only [scanDecimal, if_neg h1, if_neg h2, scanUnsigned_twoDecimals]

/-! ## The price estimate against the exact price -/

theorem floor_near_price (k : ℕ) (z : ℚ) (h : |z - (156 * (k : ℚ)) / 10| < 1 / 10) :
    ⌊z + 1 / 2⌋.toNat = (156 * k + 5) / 10 := by
  have hdiv : 10 * ((156 * k + 5) / 10) + (156 * k + 5) % 10 = 156 * k + 5 := Nat.div_add_mod _ _
  have hodd : 1 ≤ (156 * k + 5) % 10 ∧ (156 * k + 5) % 10 ≤ 9 := by omega
  generalize (156 * k + 5) / 10 = N at hdiv ⊢
  generalize (156 * k + 5) % 10 = ρ at hdiv hodd
  have hq : 10 * (N : ℚ) + (ρ : ℚ) = 156 * (k : ℚ) + 5 := by exact_mod_cast hdiv
  have h1 : (1 : ℚ) ≤ (ρ : ℚ) := by exact_mod_cast hodd.1
  have h9 : (ρ : ℚ) ≤ 9 := by exact_mod_cast hodd.2
  rw [abs_lt] at h
  have hfloor : ⌊z + 1 / 2⌋ = ((N : ℕ) : ℤ) := by
    rw [Int.floor_eq_iff]
    constructor
    · have : (((N : ℕ) : ℤ) : ℚ) = (N : ℚ) := Int.cast_natCast N
      rw [this]; linarith
    · have : (((N : ℕ) : ℤ) : ℚ) = (N : ℚ) := Int.cast_natCast N
      rw [this]; linarith
  rw [hfloor]
  simp

theorem roundTo2_exactPrice (k : ℕ) : roundTo2 (exactPrice ((k : ℚ) / 100)) = (156 * k + 5) / 10 := by
  unfold roundTo2 exactPrice
  apply floor_near_price
  have : (k : ℚ) / 100 * 13 * (12 / 10) * 1 * 100 - 156 * (k : ℚ) / 10 = 0 := by ring
  rw [this]
  norm_num

theorem toFixed2_of_near (k : ℕ) (r : ℚ) (h0 : 0 ≤ r) (h21 : r < 10 ^ 21)
    (h : |r * 100 - (156 * (k : ℚ)) / 10| < 1 / 10) :
    (JSNum.fin r).toFixed2 = twoDecimals ((156 * k + 5) / 10) := by
  have hp : pow10 21 = 10 ^ 21 := by decide!
  unfold JSNum.toFixed2
  simp only [abs_of_nonneg h0, hp, if_neg (not_le.mpr h21), if_neg (not_lt.mpr h0),
    floor_near_price k (r * 100) h]
  rfl

theorem priceEstimate_of_twoDecimals (st : State) (k : ℕ) (hk : k ≤ 10 ^ 13) :
    (calculatePriceEstimate st (.str (twoDecimals k))).priceEstimate
      = some (twoDecimals ((156 * k + 5) / 10)) := by
  show some (JSNum.toFixed2 ((((stringToNumber (twoDecimals k)).mul baseFarePerKm).mul
    (trafficMultipliers .moderate)).mul (roadTypeMultipliers .highway))) = _
  rw [stringToNumber_twoDecimals]
  rcases Nat.eq_zero_or_pos k with rfl | hpos
  · decide!
  · obtain ⟨r, hr, hnear, h0, h21⟩ := price_chain k hpos hk
    rw [hr, toFixed2_of_near k r h0 h21 hnear]

/-- C1, the claim as stated, fails for distances beyond what binary64 resolves: for
d = 300000000000.66 km (a route reported as 300000000000660 m) the exact price
4680000000010.296 rounds to 4680000000010.30, and the estimate the code stores is
4680000000010.29. -/
theorem price_estimate_off_for_huge_distance :
    twoDecimals 30000000000066 = "300000000000.66" ∧
    (calculateDistance estimatedState (.resolved (routeOf 300000000000660))).distance
      = some "300000000000.66" ∧
    (calculateDistance estimatedState (.resolved (routeOf 300000000000660))).priceEstimate
      = some "4680000000010.29" ∧
    (calculatePriceEstimate initialState (.str "300000000000.66")).priceEstimate
      = some "4680000000010.29" ∧
    exactPrice (30000000000066 / 100) = 4680000000010296 / 1000 ∧
    twoDecimals (roundTo2 (exactPrice (30000000000066 / 100))) = "4680000000010.30" := by
  decide!

/-- C1, amended: for every distance d with two decimals, 0 ≤ d ≤ 10^11 km, handed on
as text by `calculateDistance`, `calculatePriceEstimate` sets the price estimate to
d * 13 * 1.2 * 1.0 (computed exactly) rounded to 2 decimal places; the binary64
arithmetic of the code agrees with the exact value over this whole range. -/
theorem calculatePriceEstimate_matches_exact_price (st : State) (k : ℕ) (hk : k ≤ 10 ^ 13) :
    (calculatePriceEstimate st (.str (twoDecimals k))).priceEstimate
      = some (twoDecimals (roundTo2 (exactPrice ((k : ℚ) / 100)))) := by
  rw [roundTo2_exactPrice]
  exact priceEstimate_of_twoDecimals st k hk

/-- C1 at d = 10.00 (a route of 10000 m) and at d = 0: the estimates 156.00 and 0.00. -/
theorem calculatePriceEstimate_matches_exact_price_witness :
    1000 ≤ 10 ^ 13 ∧ twoDecimals 1000 = "10.00" ∧
    (calculateDistance locatedState (.resolved (routeOf 10000))).distance = some "10.00" ∧
    (calculateDistance locatedState (.resolved (routeOf 10000))).priceEstimate
      = some "156.00" ∧
    (calculatePriceEstimate initialState (.str (twoDecimals 1000))).priceEstimate
      = some (twoDecimals (roundTo2 (exactPrice (((1000 : ℕ) : ℚ) / 100)))) ∧
    twoDecimals (roundTo2 (exactPrice (((1000 : ℕ) : ℚ) / 100))) = "156.00" ∧
    twoDecimals 0 = "0.00" ∧
    (calculatePriceEstimate initialState (.str (twoDecimals 0))).priceEstimate
      = some (twoDecimals (roundTo2 (exactPrice (((0 : ℕ) : ℚ) / 100)))) ∧
    twoDecimals (roundTo2 (exactPrice (((0 : ℕ) : ℚ) / 100))) = "0.00" :=
  ⟨by norm_num, by decide!, by decide!, by decide!,
    calculatePriceEstimate_matches_exact_price initialState 1000 (by norm_num), by decide!,
    by decide!, calculatePriceEstimate_matches_exact_price initialState 0 (by norm_num),
    by decide!⟩

theorem roundDouble_neg (q : ℚ) : roundDouble (-q) = (roundDouble q).neg := by
  unfold roundDouble
  rcases lt_trichotomy q 0 with h | h | h
  · have h1 : ¬ (-q = 0) := by linarith [h]
    have h2 : 0 < -q := by linarith
    have h3 : ¬ (q = 0) := h.ne
    have h4 : ¬ (0 < q) := by linarith
    rw [if_neg h1, if_pos h2, if_neg h3, if_neg h4]
    split <;> simp [JSNum.neg]
  · subst h; simp [JSNum.neg]
  · have h1 : ¬ (-q = 0) := by linarith [h]
    have h2 : ¬ (0 < -q) := by linarith
    have h3 : ¬ (q = 0) := h.ne'
    rw [if_neg h1, if_neg h2, if_neg h3, if_pos h, neg_neg]
    split <;> simp [JSNum.neg]

theorem neg_mul_fin (x : JSNum) (b : ℚ) : (x.neg).mul (.fin b) = (x.mul (.fin b)).neg := by
  cases x with
  | nan => rfl
  | posInf =>
    simp only [JSNum.neg, JSNum.mul]
    split_ifs <;> rfl
  | negInf =>
    simp only [JSNum.neg, JSNum.mul]
    split_ifs <;> rfl
  | fin a =>
    show roundDouble (-a * b) = (roundDouble (a * b)).neg
    rw [neg_mul, roundDouble_neg]

theorem toFixed2_neg (r : ℚ) (hr : 0 < r) :
    (JSNum.fin r).neg.toFixed2 = "-" ++ (JSNum.fin r).toFixed2 := by
  simp only [JSNum.neg, JSNum.toFixed2, abs_neg, abs_of_pos hr, if_pos (neg_lt_zero.mpr hr),
    if_neg (not_lt.mpr hr.le)]
  rfl

theorem stringToNumber_neg_twoDecimals (k : ℕ) :
    stringToNumber ("-" ++ twoDecimals k) = (roundDouble ((k : ℚ) / 100)).neg := by
  have hdata : ("-" ++ twoDecimals k).data = '-' :: (twoDecimals k).data := rfl
  have htrim : trimBoth ('-' :: (twoDecimals k).data) = '-' :: (twoDecimals k).data := by
    have hstart : trimStart ('-' :: (twoDecimals k).data) = '-' :: (twoDecimals k).data := by
      rw [trimStart, List.dropWhile_cons_of_neg]; decide
    unfold trimBoth
    rw [hstart]
    have h := trimBoth_twoDecimals k
    unfold trimBoth at h
    obtain ⟨c, p, tl, hshape, hc⟩ := twoDecimals_shape k
    have hs : trimStart (twoDecimals k).data = (twoDecimals k).data := by
      rw [hshape, trimStart, List.dropWhile_cons_of_neg]
      simp [isDecDigit_not_white c hc]
    rw [hs] at h
    have hrev := congrArg List.reverse h
    rw [List.reverse_reverse] at hrev
    rw [List.reverse_cons, List.dropWhile_append, hrev]
    rw [if_neg (by rw [hshape]; simp)]
    simp
  have hnd : scanNonDecimal ('-' :: (twoDecimals k).data) = none := by
    unfold scanNonDecimal
    split
    · rename_i heq; simp at heq
    · rfl
  unfold stringToNumber
  rw [hdata]
  simp only [htrim, hnd]
  rw [if_neg (by simp)]
  simp [scanDecimal, scanUnsigned_twoDecimals]


theorem priceEstimate_of_neg_twoDecimals (st : State) (k : ℕ) (hk1 : 1 ≤ k) (hk : k ≤ 10 ^ 13) :
    (calculatePriceEstimate st (.str ("-" ++ twoDecimals k))).priceEstimate
      = some ("-" ++ twoDecimals ((156 * k + 5) / 10)) := by
  show some (JSNum.toFixed2 ((((stringToNumber ("-" ++ twoDecimals k)).mul baseFarePerKm).mul
    (trafficMultipliers .moderate)).mul (roadTypeMultipliers .highway))) = _
  obtain ⟨r, hr, hnear, h0, h21⟩ := price_chain k hk1 hk
  have hkq : (1 : ℚ) ≤ (k : ℚ) := by exact_mod_cast hk1
  have hpos : 0 < r := by
    rw [abs_lt] at hnear
    linarith [hnear.1]
  rw [baseFarePerKm_eq, moderate_eq, highway_eq] at hr ⊢
  rw [stringToNumber_neg_twoDecimals, neg_mul_fin, neg_mul_fin, neg_mul_fin, hr,
    toFixed2_neg r hpos, toFixed2_of_near k r h0 h21 hnear]

/-- C2, the claim as stated, fails: handed the negative distance `-1.00`, the text
`NaN` or the text `Infinity`, `calculatePriceEstimate` replaces the estimate 156.00
by `-15.60`, `NaN` and `Infinity`. -/
theorem negative_and_nan_distance_set_an_estimate :
    estimatedState.priceEstimate = some "156.00" ∧
    (calculatePriceEstimate estimatedState (.str "-1.00")).priceEstimate = some "-15.60" ∧
    (calculatePriceEstimate estimatedState (.str "NaN")).priceEstimate = some "NaN" ∧
    (calculatePriceEstimate estimatedState (.str "Infinity")).priceEstimate
      = some "Infinity" := by
  decide!

/-- C2, amended: `calculatePriceEstimate` never rejects its input and always sets the
price estimate: to the text `NaN` for a distance that is not a number, to `Infinity`
or `-Infinity` for an infinite one, and for a negative distance -d (d with two
decimals, up to 10^11 km) to the negative amount: a minus sign followed by
d * 13 * 1.2 * 1.0 rounded to 2 decimal places. -/
theorem calculatePriceEstimate_never_rejects (st : State) (v : JSVal) (k : ℕ) :
    (calculatePriceEstimate st v).priceEstimate.isSome = true ∧
    (v.toNumber = .nan → (calculatePriceEstimate st v).priceEstimate = some "NaN") ∧
    (v.toNumber = .posInf → (calculatePriceEstimate st v).priceEstimate = some "Infinity") ∧
    (v.toNumber = .negInf → (calculatePriceEstimate st v).priceEstimate = some "-Infinity") ∧
    (1 ≤ k → k ≤ 10 ^ 13 →
      (calculatePriceEstimate st (.str ("-" ++ twoDecimals k))).priceEstimate
        = some ("-" ++ twoDecimals (roundTo2 (exactPrice ((k : ℚ) / 100))))) := by
  refine ⟨rfl, ?_, ?_, ?_, ?_⟩
  · intro h
    show some (JSNum.toFixed2 (((v.toNumber.mul baseFarePerKm).mul
      (trafficMultipliers .moderate)).mul (roadTypeMultipliers .highway))) = _
    rw [h]; decide!
  · intro h
    show some (JSNum.toFixed2 (((v.toNumber.mul baseFarePerKm).mul
      (trafficMultipliers .moderate)).mul (roadTypeMultipliers .highway))) = _
    rw [h]; decide!
  · intro h
    show some (JSNum.toFixed2 (((v.toNumber.mul baseFarePerKm).mul
      (trafficMultipliers .moderate)).mul (roadTypeMultipliers .highway))) = _
    rw [h]; decide!
  · intro hk1 hk
    rw [roundTo2_exactPrice]
    exact priceEstimate_of_neg_twoDecimals st k hk1 hk

/-- C2 amended, at the distance text `abc` and at the negative distance `-2.50`. -/
theorem calculatePriceEstimate_never_rejects_witness :
    (JSVal.str "abc").toNumber = .nan ∧
    (calculatePriceEstimate estimatedState (.str "abc")).priceEstimate = some "NaN" ∧
    1 ≤ 250 ∧ 250 ≤ 10 ^ 13 ∧ "-" ++ twoDecimals 250 = "-2.50" ∧
    (calculatePriceEstimate estimatedState (.str ("-" ++ twoDecimals 250))).priceEstimate
      = some ("-" ++ twoDecimals (roundTo2 (exactPrice (((250 : ℕ) : ℚ) / 100)))) ∧
    "-" ++ twoDecimals (roundTo2 (exactPrice (((250 : ℕ) : ℚ) / 100))) = "-39.00" :=
  ⟨by decide!,
    (calculatePriceEstimate_never_rejects estimatedState (.str "abc") 250).2.1 (by decide!),
    by norm_num, by norm_num, by decide!,
    (calculatePriceEstimate_never_rejects estimatedState (.str "abc") 250).2.2.2.2
      (by norm_num) (by norm_num),
    by decide!⟩

/-! ## Geocoding: which coordinate a response sets -/

theorem getLength_arr (xs : List Json) :
    getLength (some (.arr xs)) = .ok (some (.num (.fin xs.length))) := rfl

theorem fetchCoordinates_rejected (st : State) (type : CoordType) :
    fetchCoordinates st type .rejected
      = { st with console := st.console ++ ["Error fetching coordinates:"] } := rfl

theorem fetchCoordinates_empty (st : State) (type : CoordType) :
    fetchCoordinates st type (.resolved (.arr [])) = st := by
  simp [fetchCoordinates, getLength, jsonToNumber, gtZero]

theorem gtZero_length_cons (first : Json) (rest : List Json) :
    gtZero (jsonToNumber (some (.num (.fin ((first :: rest).length : ℕ))))) = true := by
  simp only [jsonToNumber, gtZero, List.length_cons, decide_eq_true_eq]
  positivity

theorem fetchCoordinates_null_first (st : State) (type : CoordType) (rest : List Json) :
    fetchCoordinates st type (.resolved (.arr (.null :: rest)))
      = { st with console := st.console ++ ["Error fetching coordinates:"] } := by
  have h := gtZero_length_cons .null rest
  simp only [fetchCoordinates, getLength_arr, h, if_true, getFirst, List.head?_cons, getProp]

theorem fetchCoordinates_object_first (st : State) (type : CoordType)
    (kvs : List (String × Json)) (rest : List Json) :
    fetchCoordinates st type (.resolved (.arr (.obj kvs :: rest)))
      = { st with
          rideData :=
            match type with
            | .start =>
              { st.rideData with
                startCoords := some (Coords.mk st.nextRef (lookupKey "lat" kvs) (lookupKey "lon" kvs)) }
            | .end_ =>
              { st.rideData with
                endCoords := some (Coords.mk st.nextRef (lookupKey "lat" kvs) (lookupKey "lon" kvs)) }
          nextRef := st.nextRef + 1 } := by
  have h := gtZero_length_cons (.obj kvs) rest
  simp only [fetchCoordinates, getLength_arr, h, if_true, getFirst, List.head?_cons, getProp]
  cases type <;> rfl


theorem firstResult_object_first (kvs : List (String × Json)) (rest : List Json) :
    firstResult (.resolved (.arr (.obj kvs :: rest))) = some (.obj kvs) := by
  have h := gtZero_length_cons (.obj kvs) rest
  simp only [firstResult, getLength_arr, h, if_true, getFirst, List.head?_cons]

theorem firstResult_null_first (rest : List Json) :
    firstResult (.resolved (.arr (.null :: rest))) = none := by
  have h := gtZero_length_cons .null rest
  simp only [firstResult, getLength_arr, h, if_true, getFirst, List.head?_cons]

theorem firstResult_empty : firstResult (.resolved (.arr [])) = none := by
  simp [firstResult, getLength, jsonToNumber, gtZero]

theorem firstResult_ne_null (geocoding : HttpResult) (v : Json)
    (h : firstResult geocoding = some v) : ∃ a b, getProp (some v) "lat" = .ok a ∧
      getProp (some v) "lon" = .ok b := by
  cases v with
  | null =>
    exfalso
    cases geocoding with
    | rejected => simp [firstResult] at h
    | resolved data =>
      unfold firstResult at h
      simp only at h
      split at h
      · simp at h
      · split at h
        · split at h
          · simp at h
          · rename_i first hne heq
            simp only [Option.some.injEq] at h
            subst h
            exact hne rfl
          · simp at h
        · simp at h
  | bool b => exact ⟨_, _, rfl, rfl⟩
  | num n => exact ⟨_, _, rfl, rfl⟩
  | str s => exact ⟨_, _, rfl, rfl⟩
  | arr xs => exact ⟨_, _, rfl, rfl⟩
  | obj kvs => exact ⟨_, _, rfl, rfl⟩

theorem fetchCoordinates_of_none (st : State) (type : CoordType) (geocoding : HttpResult)
    (h : firstResult geocoding = none) :
    (fetchCoordinates st type geocoding).rideData = st.rideData := by
  cases geocoding with
  | rejected => rfl
  | resolved data =>
    unfold firstResult at h
    unfold fetchCoordinates
    simp only at h ⊢
    cases hlen : getLength (some data) with
    | error e => rfl
    | ok len =>
      simp only [hlen] at h ⊢
      by_cases hgt : gtZero (jsonToNumber len) = true
      · rw [if_pos hgt] at h ⊢
        cases hfirst : getFirst (some data) with
        | error e => rfl
        | ok first =>
          simp only [hfirst] at h ⊢
          cases first with
          | none => rfl
          | some v =>
            cases v with
            | null => rfl
            | bool b => simp at h
            | num n => simp at h
            | str s => simp at h
            | arr xs => simp at h
            | obj kvs => simp at h
      · rw [if_neg hgt]

theorem fetchCoordinates_of_some (st : State) (type : CoordType) (geocoding : HttpResult)
    (v : Json) (lat lon : Option Json) (h : firstResult geocoding = some v)
    (hlat : getProp (some v) "lat" = .ok lat) (hlon : getProp (some v) "lon" = .ok lon) :
    fetchCoordinates st type geocoding =
      { st with
        rideData :=
          match type with
          | .start => { st.rideData with startCoords := some (Coords.mk st.nextRef lat lon) }
          | .end_ => { st.rideData with endCoords := some (Coords.mk st.nextRef lat lon) }
        nextRef := st.nextRef + 1 } := by
  cases geocoding with
  | rejected => simp [firstResult] at h
  | resolved data =>
    unfold firstResult at h
    unfold fetchCoordinates
    simp only at h ⊢
    cases hlen : getLength (some data) with
    | error e => simp [hlen] at h
    | ok len =>
      simp only [hlen] at h ⊢
      by_cases hgt : gtZero (jsonToNumber len) = true
      · rw [if_pos hgt] at h ⊢
        cases hfirst : getFirst (some data) with
        | error e => simp [hfirst] at h
        | ok first =>
          simp only [hfirst] at h ⊢
          cases first with
          | none => simp at h
          | some w =>
            have hw : w = v := by
              cases w <;> simp at h <;> exact h
            subst hw
            simp only [hlat, hlon]
            cases type <;> rfl
      · rw [if_neg hgt] at h
        simp at h

theorem calculateDistance_rideData (st : State) (routing : HttpResult) :
    (calculateDistance st routing).rideData = st.rideData := by
  unfold calculateDistance
  split
  · rfl
  · cases routing with
    | rejected => rfl
    | resolved data =>
      simp only
      cases extractDistance data <;> rfl

theorem afterRender_rideData (prev next : State) (routing : HttpResult) :
    (afterRender prev next routing).rideData = next.rideData := by
  unfold afterRender
  split
  · split
    · exact calculateDistance_rideData next routing
    · rfl
  · rfl

theorem handleSubmit_final_rideData (st : State) (createRide : Payload → Except ApiError Unit) :
    (handleSubmit st createRide).final.rideData = st.rideData := by
  by_cases hn : (parseFloat (cellVal st.priceEstimate)).isNaN = true
  · simp only [handleSubmit, handleSubmitBegin_of_nan st hn]
  · have hn' : (parseFloat (cellVal st.priceEstimate)).isNaN = false := by simpa using hn
    cases hd : dateParse (st.rideData.rideDate ++ "T" ++ st.rideData.rideTime ++ ":00Z") with
    | none =>
      have hb : handleSubmitBegin st = .threw
          { st with errorMessage := "", successMessage := "", isLoading := true } := by
        simp [handleSubmitBegin, hn', hd]
      simp only [handleSubmit, hb]
    | some t =>
      simp only [handleSubmit, handleSubmitBegin_of_valid st t hn' hd, handleSubmitResume]
      split <;> rfl


theorem fetchCoordinates_coords (st : State) (type t : CoordType) (geocoding : HttpResult)
    (h : ((fetchCoordinates st type geocoding).rideData.coords t).isSome = true) :
    (st.rideData.coords t).isSome = true ∨ (type = t ∧ (firstResult geocoding).isSome = true) := by
  cases hfr : firstResult geocoding with
  | none =>
    rw [fetchCoordinates_of_none st type geocoding hfr] at h
    exact Or.inl h
  | some v =>
    obtain ⟨lat, lon, hlat, hlon⟩ := firstResult_ne_null geocoding v hfr
    rw [fetchCoordinates_of_some st type geocoding v lat lon hfr hlat hlon] at h
    cases type <;> cases t
    · exact Or.inr ⟨rfl, rfl⟩
    · exact Or.inl h
    · exact Or.inl h
    · exact Or.inr ⟨rfl, rfl⟩

theorem handleEvent_coords (st : State) (ev : Event) (t : CoordType)
    (h : ((handleEvent st ev).rideData.coords t).isSome = true) :
    (st.rideData.coords t).isSome = true ∨ ev.resolves t = true := by
  cases ev with
  | change name value =>
    left
    cases name <;> cases t <;> exact h
  | select value fieldName geocoding =>
    cases fieldName with
    | startLocation =>
      rcases fetchCoordinates_coords _ .start t geocoding h with h1 | ⟨h1, h2⟩
      · left; cases t <;> exact h1
      · right; simp [Event.resolves, LocationField.coordType, h1, h2]
    | endLocation =>
      rcases fetchCoordinates_coords _ .end_ t geocoding h with h1 | ⟨h1, h2⟩
      · left; cases t <;> exact h1
      · right; simp [Event.resolves, LocationField.coordType, h1, h2]
  | submit createRide =>
    left
    have := handleSubmit_final_rideData st createRide
    simp only [handleEvent] at h
    rw [this] at h
    exact h

theorem step_coords (st : State) (ev : Event × HttpResult) (t : CoordType)
    (h : ((step st ev).rideData.coords t).isSome = true) :
    (st.rideData.coords t).isSome = true ∨ ev.1.resolves t = true := by
  unfold step at h
  rw [afterRender_rideData] at h
  exact handleEvent_coords st ev.1 t h

theorem run_coords (evs : List (Event × HttpResult)) (st : State) (t : CoordType)
    (h : ((run st evs).rideData.coords t).isSome = true) :
    (st.rideData.coords t).isSome = true ∨ ∃ ev ∈ evs, ev.1.resolves t = true := by
  induction evs generalizing st with
  | nil => exact Or.inl h
  | cons ev rest ih =>
    have hrun : run st (ev :: rest) = run (step st ev) rest := rfl
    rw [hrun] at h
    rcases ih (step st ev) h with h1 | ⟨e, he, hres⟩
    · rcases step_coords st ev t h1 with h2 | h2
      · exact Or.inl h2
      · exact Or.inr ⟨ev, List.mem_cons_self _ _, h2⟩
    · exact Or.inr ⟨e, List.mem_cons_of_mem _ he, hres⟩

/-- C11: for every state and every geocoding answer handled by `fetchCoordinates` for a
selected field: when the result set is non-empty (its first entry a result record), the
coordinate of that field (`startCoords` for `startLocation`, `endCoords` for
`endLocation`) becomes a fresh object holding the first result's `lat` and `lon`, and
every other draft field, the other coordinate included, is unchanged; when the result
set is empty or the request fails, the draft is unchanged.  Hence, in every state the
form reaches from its initial state, a coordinate is present only if an earlier event
was a successful geocoding resolution for its own field. -/
theorem fetchCoordinates_sets_own_coordinate (st : State) (type : CoordType)
    (geocoding : HttpResult) (value : String) (evs : List (Event × HttpResult)) :
    (∀ kvs rest, geocoding = .resolved (.arr (.obj kvs :: rest)) →
      (fetchCoordinates st type geocoding).rideData =
        (match type with
          | .start =>
            { st.rideData with
              startCoords := some (Coords.mk st.nextRef (lookupKey "lat" kvs) (lookupKey "lon" kvs)) }
          | .end_ =>
            { st.rideData with
              endCoords := some (Coords.mk st.nextRef (lookupKey "lat" kvs) (lookupKey "lon" kvs)) })) ∧
    (geocoding = .rejected ∨ geocoding = .resolved (.arr []) →
      (fetchCoordinates st type geocoding).rideData = st.rideData) ∧
    (∀ t, (fetchCoordinates st type geocoding).rideData.coords t ≠ st.rideData.coords t →
      t = type ∧ (firstResult geocoding).isSome = true) ∧
    handleSelectLocation st value .startLocation geocoding =
      fetchCoordinates { st with rideData := { st.rideData with startLocation := value } }
        .start geocoding ∧
    handleSelectLocation st value .endLocation geocoding =
      fetchCoordinates { st with rideData := { st.rideData with endLocation := value } }
        .end_ geocoding ∧
    firstResult .rejected = none ∧ firstResult (.resolved (.arr [])) = none ∧
    (∀ t, ((run initialState evs).rideData.coords t).isSome = true →
      ∃ ev ∈ evs, ev.1.resolves t = true) := by
  refine ⟨?_, ?_, ?_, rfl, rfl, rfl, firstResult_empty, ?_⟩
  · rintro kvs rest rfl
    rw [fetchCoordinates_of_some st type _ (.obj kvs) _ _ (firstResult_object_first kvs rest)
      rfl rfl]
  · rintro (rfl | rfl)
    · rfl
    · exact fetchCoordinates_of_none st type _ firstResult_empty
  · intro t hne
    cases hfr : firstResult geocoding with
    | none =>
      rw [fetchCoordinates_of_none st type geocoding hfr] at hne
      exact absurd rfl hne
    | some v =>
      refine ⟨?_, rfl⟩
      obtain ⟨lat, lon, hlat, hlon⟩ := firstResult_ne_null geocoding v hfr
      rw [fetchCoordinates_of_some st type geocoding v lat lon hfr hlat hlon] at hne
      cases type <;> cases t <;> first | rfl | exact absurd rfl hne
  · intro t h
    rcases run_coords evs initialState t h with h0 | h1
    · cases t <;> simp [initialState, initialRideData, RideData.coords] at h0
    · exact h1


/-- C11 at the initial form: selecting the start place A, answered with one result at
(12.9, 77.6), stores that result under `startCoords` alone; a rejected request for the
end place leaves the Estimated draft as it was. -/
theorem fetchCoordinates_sets_own_coordinate_witness :
    (fetchCoordinates initialState .start (.resolved (oneResult "12.9" "77.6"))).rideData =
      { initialState.rideData with
        startCoords := some (Coords.mk initialState.nextRef
          (lookupKey "lat" [("place_id", .num (.fin 1)), ("lat", .str "12.9"), ("lon", .str "77.6")])
          (lookupKey "lon" [("place_id", .num (.fin 1)), ("lat", .str "12.9"), ("lon", .str "77.6")])) } ∧
    coordText (lookupKey "lat"
      [("place_id", .num (.fin 1)), ("lat", .str "12.9"), ("lon", .str "77.6")]) = "12.9" ∧
    coordText (lookupKey "lon"
      [("place_id", .num (.fin 1)), ("lat", .str "12.9"), ("lon", .str "77.6")]) = "77.6" ∧
    (fetchCoordinates estimatedState .end_ .rejected).rideData = estimatedState.rideData ∧
    ((run initialState
      [(.select "A" .startLocation (.resolved (oneResult "12.9" "77.6")), .rejected)]
      ).rideData.coords .start).isSome = true ∧
    ((run initialState
      [(.select "A" .startLocation (.resolved (oneResult "12.9" "77.6")), .rejected)]
      ).rideData.coords .end_).isSome = false ∧
    (∃ ev ∈ [((Event.select "A" .startLocation (.resolved (oneResult "12.9" "77.6")),
        HttpResult.rejected) : Event × HttpResult)], ev.1.resolves .start = true) :=
  ⟨(fetchCoordinates_sets_own_coordinate initialState .start
      (.resolved (oneResult "12.9" "77.6")) "A" []).1 _ _ rfl,
    by decide!, by decide!,
    (fetchCoordinates_sets_own_coordinate estimatedState .end_ .rejected "B" []).2.1
      (Or.inl rfl),
    by decide!, by decide!,
    (fetchCoordinates_sets_own_coordinate initialState .start
      (.resolved (oneResult "12.9" "77.6")) "A"
      [(.select "A" .startLocation (.resolved (oneResult "12.9" "77.6")), .rejected)]
      ).2.2.2.2.2.2.2 .start (by decide!)⟩

end RideOk
